import Mathlib

/-!
Shallow embedding of the MommyData aggregation/reshaping core
(`app/controllers/scenario_controller.py` and
`app/controllers/comparison_controller.py`).

Database rows are modelled as Lean structures; SQL floats are modelled as
exact rationals.  SQL aggregate semantics are made explicit: `AVG` and `SUM`
ignore NULL values and return NULL on an empty (or all-NULL) multiset,
`COUNT(id)` of a non-null primary key counts rows, `GROUP BY` puts all NULL
keys into one group, and an equality / `IN` comparison against a NULL column
value is not satisfied.  Python dictionaries are modelled as
insertion-ordered association lists, and Python truthiness of optional
values (`None`, `0`, `""`, `[]` are falsy) is modelled explicitly.
-/

namespace MommyData

attribute [local semireducible] Rat.add Rat.mul Rat.inv

/-- A row of the `mother` table (`app/models/mother.py`).  Fields never read
by the functions verified here (`id`, `cultural_background`, `lga`,
`parity`) are omitted; `id` is a non-null primary key, so `COUNT(id)`
counts rows.  `year` is a non-nullable integer column. -/
structure Mother where
  age_group : Option String
  smoking_status : Option String
  bmi_category : Option String
  diabetes_pre : Option Bool
  hypertension_pre : Option Bool
  diabetes_subgroup : Option String
  hypertension_subgroup : Option String
  lhd : Option String
  year : Int
  total_mothers : Option Int
  percentage : Option ℚ
  deriving DecidableEq, Repr

/-- A row of the `complication` table (`app/models/complication.py`),
restricted to the fields read by `get_preparing_scenario_data`. -/
structure Complication where
  complication_type : Option String
  lhd : Option String
  year : Int
  total_cases : Option Int
  percentage : Option ℚ
  deriving DecidableEq, Repr

/-- Python truthiness of an optional string: `None` and `""` are falsy. -/
def pyTruthyStr : Option String → Bool
  | none => false
  | some s => s ≠ ""

/-- Python truthiness of an optional integer: `None` and `0` are falsy. -/
def pyTruthyInt : Option Int → Bool
  | none => false
  | some n => n ≠ 0

/-- Python `float(x) if x else 0.0` on a nullable SQL number: both `None`
and `0.0` fall through to `0.0`. -/
def pyFloatOrZero : Option ℚ → ℚ
  | none => 0
  | some q => if q ≠ 0 then q else 0

/-- Python `int(x) if x else 0` on a nullable SQL integer. -/
def pyIntOrZero : Option Int → Int
  | none => 0
  | some n => if n ≠ 0 then n else 0

/-- Python `str.lower()` (the strings compared against are ASCII),
written as a map over the character list. -/
def pyLower (s : String) : String :=
  String.mk (s.data.map Char.toLower)

/-- SQL `AVG` over a column of a group: NULLs are ignored; the result is
NULL when no non-NULL value is present. -/
def sqlAvg (xs : List (Option ℚ)) : Option ℚ :=
  let vs := xs.filterMap id
  if vs.isEmpty then none else some (vs.sum / vs.length)

/-- SQL `SUM` over a column of a group: NULLs are ignored; the result is
NULL when no non-NULL value is present. -/
def sqlSum (xs : List (Option Int)) : Option Int :=
  let vs := xs.filterMap id
  if vs.isEmpty then none else some vs.sum

/-- Lookup in a Python dict modelled as an insertion-ordered association
list. -/
def dget {α β : Type} [DecidableEq α] (d : List (α × β)) (k : α) : Option β :=
  (d.find? (fun p => p.1 = k)).map (fun p => p.2)

/-- `d[k] = v` on a Python dict: an existing key keeps its position, a new
key is appended at the end. -/
def dset {α β : Type} [DecidableEq α] (d : List (α × β)) (k : α) (v : β) :
    List (α × β) :=
  match d with
  | [] => [(k, v)]
  | p :: rest => if p.1 = k then (k, v) :: rest else p :: dset rest k v

/-- `sorted(list(years_set))` : the distinct values, sorted ascending.
(The Python set is modelled as the list of added elements; deduplicating
and sorting it yields exactly `sorted(list(set(...)))`.) -/
def sortDedup (ys : List Int) : List Int :=
  List.insertionSort (fun a b => a ≤ b) ys.dedup

/-! ### The factor-trend queries (`get_factor_data`, `get_factor_data_simple`) -/

/-- The `factor_name` dispatch shared by `get_factor_data` (lines 240-247)
and `get_factor_data_simple` (lines 345-350, 359-372): the condition
column and the matching sub-group column for the recognized factor names,
`none` for any other name. -/
def factorFields (factor_name : String) :
    Option ((Mother → Option Bool) × (Mother → Option String)) :=
  if factor_name = "diabetes" then
    some (Mother.diabetes_pre, Mother.diabetes_subgroup)
  else if factor_name = "hypertension" then
    some (Mother.hypertension_pre, Mother.hypertension_subgroup)
  else none

/-- The year conditions appended to the query (`if start_year and
end_year: ... elif ...`); Python truthiness means a year value of `0`
behaves exactly like an absent parameter. -/
def yearCond (start_year end_year : Option Int) (y : Int) : Bool :=
  if pyTruthyInt start_year && pyTruthyInt end_year then
    decide (end_year.getD 0 ≤ y) && decide (y ≤ start_year.getD 0)
  else if pyTruthyInt start_year then decide (y ≤ start_year.getD 0)
  else if pyTruthyInt end_year then decide (end_year.getD 0 ≤ y)
  else true

/-- The optional sub-group filter of `get_factor_data` (lines 256-261):
with one sub-group an SQL `=` comparison, with several an `IN` list;
either way a NULL sub-group column never matches.  An absent or empty
list adds no condition (`if sub_group and ... and len(sub_group) > 0`). -/
def subgroupCond (sf : Mother → Option String)
    (sub_group : Option (List String)) (r : Mother) : Bool :=
  match sub_group with
  | none => true
  | some [] => true
  | some l =>
    match sf r with
    | none => false
    | some v => decide (v ∈ l)

/-- The WHERE clause of the detailed query: condition column non-NULL,
`age_group` non-NULL, optional sub-group filter, year bounds. -/
def detailedConditions (ff : Mother → Option Bool)
    (sf : Mother → Option String) (sub_group : Option (List String))
    (start_year end_year : Option Int) (r : Mother) : Bool :=
  (ff r).isSome && r.age_group.isSome && subgroupCond sf sub_group r &&
    yearCond start_year end_year r.year

/-- The GROUP BY key of the detailed query. -/
def detailedKey (sf : Mother → Option String) (r : Mother) :
    Int × Option String × Option String :=
  (r.year, r.age_group, sf r)

/-- Codepoint-wise strict order on character lists (the BINARY collation
SQLite sorts text by). -/
def charsLt : List Char → List Char → Bool
  | _, [] => false
  | [], _ :: _ => true
  | a :: as, b :: bs =>
    if a.toNat < b.toNat then true
    else if b.toNat < a.toNat then false
    else charsLt as bs

/-- Strict string order by codepoints. -/
def strLt (a b : String) : Bool :=
  charsLt a.data b.data

/-- SQLite `ORDER BY` on a nullable string column: NULL sorts first. -/
def optStrLE : Option String → Option String → Bool
  | none, _ => true
  | some _, none => false
  | some a, some b => strLt a b || a == b

/-- Strict version of `optStrLE`. -/
def optStrLT : Option String → Option String → Bool
  | none, none => false
  | none, some _ => true
  | some _, none => false
  | some a, some b => strLt a b

/-- SQLite `ORDER BY` on a nullable boolean column (0 before 1, NULL
first). -/
def optBoolLE : Option Bool → Option Bool → Bool
  | none, _ => true
  | some _, none => false
  | some a, some b => !a || b

/-- `ORDER BY year, age_group, sub_group` on the detailed GROUP BY keys. -/
def detailedKeyLE (a b : Int × Option String × Option String) : Bool :=
  decide (a.1 < b.1) ||
    (decide (a.1 = b.1) &&
      (optStrLT a.2.1 b.2.1 ||
        (decide (a.2.1 = b.2.1) && optStrLE a.2.2 b.2.2)))

/-- A result row of the detailed grouped query. -/
structure FRow where
  year : Int
  age_group : Option String
  sub_group : Option String
  avg_percentage : Option ℚ
  deriving DecidableEq, Repr

/-- The rows selected by the WHERE clause of the detailed query. -/
def detailedSel (rows : List Mother) (ff : Mother → Option Bool)
    (sf : Mother → Option String) (sub_group : Option (List String))
    (start_year end_year : Option Int) : List Mother :=
  rows.filter (detailedConditions ff sf sub_group start_year end_year)

/-- The distinct GROUP BY keys of the detailed query, in SQL result
order (`ORDER BY year, age_group, sub_group`). -/
def detailedKeys (rows : List Mother) (ff : Mother → Option Bool)
    (sf : Mother → Option String) (sub_group : Option (List String))
    (start_year end_year : Option Int) :
    List (Int × Option String × Option String) :=
  List.insertionSort (fun a b => detailedKeyLE a b = true)
    (((detailedSel rows ff sf sub_group start_year end_year).map
      (detailedKey sf)).dedup)

/-- One result row of the detailed grouped query: the group key together
with `AVG(percentage)` over the group (`AVG` ignores NULLs). -/
def detailedRow (rows : List Mother) (ff : Mother → Option Bool)
    (sf : Mother → Option String) (sub_group : Option (List String))
    (start_year end_year : Option Int)
    (k : Int × Option String × Option String) : FRow :=
  { year := k.1, age_group := k.2.1, sub_group := k.2.2,
    avg_percentage :=
      sqlAvg (((detailedSel rows ff sf sub_group start_year
        end_year).filter (fun r => detailedKey sf r = k)).map
        Mother.percentage) }

/-- The detailed grouped query (lines 275-292): filter by the WHERE
clause, group by `(year, age_group, sub_group)` (SQL groups all NULL keys
together), average the `percentage` column per group, order by the
grouping key. -/
def detailedQuery (rows : List Mother) (ff : Mother → Option Bool)
    (sf : Mother → Option String) (sub_group : Option (List String))
    (start_year end_year : Option Int) : List FRow :=
  (detailedKeys rows ff sf sub_group start_year end_year).map
    (detailedRow rows ff sf sub_group start_year end_year)

/-- `str(row.sub_group) if row.sub_group else 'Unknown'`: a falsy (NULL
or empty) sub-group is normalized to the label `"Unknown"`. -/
def sgLabel : Option String → String
  | none => "Unknown"
  | some s => if s ≠ "" then s else "Unknown"

/-- The sentinel test and target cell of one result row in the Python
loop of `get_factor_data` (lines 301-319): `none` when the row is skipped
(`not row.age_group or row.age_group.lower() in ['total', 'not
stated']`), otherwise the `(age_group, sub-group label, year)` cell it
writes. -/
def detailedTarget (row : FRow) : Option (String × String × Int) :=
  match row.age_group with
  | none => none
  | some ag =>
    if ag = "" ∨ pyLower ag = "total" ∨ pyLower ag = "not stated" then none
    else some (ag, sgLabel row.sub_group, row.year)

/-- The nested output mapping `{age_group: {label: {year: value}}}`. -/
abbrev YearMap := List (Int × ℚ)

/-- Inner mapping from sub-group label (or `"Yes"`/`"No"`) to year map. -/
abbrev SubMap := List (String × YearMap)

/-- Outer mapping from age-group key to `SubMap`. -/
abbrev AgeMap := List (String × SubMap)

/-- `age_groups[ag][sg][y]`, when every level is present. -/
def dget3 (d : AgeMap) (ag sg : String) (y : Int) : Option ℚ :=
  (dget d ag).bind (fun m => (dget m sg).bind (fun ym => dget ym y))

/-- The Python idiom `if ag not in d: d[ag] = {}` / `if sg not in d[ag]:
d[ag][sg] = {}` / `d[ag][sg][y] = v`. -/
def dset3 (d : AgeMap) (ag sg : String) (y : Int) (v : ℚ) : AgeMap :=
  let m := (dget d ag).getD []
  let ym := (dget m sg).getD []
  dset d ag (dset m sg (dset ym y v))

/-- One iteration of the Python loop of `get_factor_data`: either skip
the row, or record its year in `years_set` and write
`age_groups[ag][sg][year] = float(row.avg_percentage) if
row.avg_percentage else 0.0`. -/
def detailedStep (acc : List Int × AgeMap) (row : FRow) :
    List Int × AgeMap :=
  match detailedTarget row with
  | none => acc
  | some (ag, sg, y) =>
    (acc.1 ++ [y], dset3 acc.2 ag sg y (pyFloatOrZero row.avg_percentage))

/-- The dictionary returned by both factor-trend views. -/
structure FactorResult where
  factor : String
  user_age_group : Option String
  years : List Int
  age_groups : AgeMap
  deriving DecidableEq, Repr

/-- `get_factor_data(db, factor_name, age_group, start_year, end_year,
sub_group)` (`scenario_controller.py` lines 223-325), with the database
contents passed explicitly as the list of `mother` rows. -/
def getFactorData (rows : List Mother) (factor_name : String)
    (age_group : Option String) (start_year end_year : Option Int)
    (sub_group : Option (List String)) : FactorResult :=
  match factorFields factor_name with
  | none =>
    { factor := factor_name, user_age_group := age_group, years := [],
      age_groups := [] }
  | some (ff, sf) =>
    let qrows := detailedQuery rows ff sf sub_group start_year end_year
    let acc := qrows.foldl detailedStep ([], [])
    { factor := factor_name, user_age_group := age_group,
      years := sortDedup acc.1, age_groups := acc.2 }

/-- The sub-group exclusion of `get_factor_data_simple` (lines 359-372):
`or_(subgroup.is_(None), subgroup != "Total")` — NULL sub-groups are
kept, exactly the literal string `"Total"` is dropped. -/
def simpleSubgroupCond (sf : Mother → Option String) (r : Mother) : Bool :=
  (sf r).isNone || decide (sf r ≠ some "Total")

/-- The WHERE clause of the simple query. -/
def simpleConditions (ff : Mother → Option Bool)
    (sf : Mother → Option String) (start_year end_year : Option Int)
    (r : Mother) : Bool :=
  (ff r).isSome && r.age_group.isSome && simpleSubgroupCond sf r &&
    yearCond start_year end_year r.year

/-- The GROUP BY key of the simple query. -/
def simpleKey (ff : Mother → Option Bool) (r : Mother) :
    Int × Option String × Option Bool :=
  (r.year, r.age_group, ff r)

/-- `ORDER BY year, age_group, factor` on the simple GROUP BY keys. -/
def simpleKeyLE (a b : Int × Option String × Option Bool) : Bool :=
  decide (a.1 < b.1) ||
    (decide (a.1 = b.1) &&
      (optStrLT a.2.1 b.2.1 ||
        (decide (a.2.1 = b.2.1) && optBoolLE a.2.2 b.2.2)))

/-- A result row of the simple grouped query. -/
structure SRow where
  year : Int
  age_group : Option String
  has_factor : Option Bool
  total_mothers : Option Int
  deriving DecidableEq, Repr

/-- The rows selected by the WHERE clause of the simple query. -/
def simpleSel (rows : List Mother) (ff : Mother → Option Bool)
    (sf : Mother → Option String) (start_year end_year : Option Int) :
    List Mother :=
  rows.filter (simpleConditions ff sf start_year end_year)

/-- The distinct GROUP BY keys of the simple query, in SQL result order
(`ORDER BY year, age_group, factor`). -/
def simpleKeys (rows : List Mother) (ff : Mother → Option Bool)
    (sf : Mother → Option String) (start_year end_year : Option Int) :
    List (Int × Option String × Option Bool) :=
  List.insertionSort (fun a b => simpleKeyLE a b = true)
    (((simpleSel rows ff sf start_year end_year).map
      (simpleKey ff)).dedup)

/-- One result row of the simple grouped query: the group key together
with `SUM(total_mothers)` over the group (`SUM` ignores NULLs). -/
def simpleRow (rows : List Mother) (ff : Mother → Option Bool)
    (sf : Mother → Option String) (start_year end_year : Option Int)
    (k : Int × Option String × Option Bool) : SRow :=
  { year := k.1, age_group := k.2.1, has_factor := k.2.2,
    total_mothers :=
      sqlSum (((simpleSel rows ff sf start_year end_year).filter
        (fun r => simpleKey ff r = k)).map Mother.total_mothers) }

/-- The simple grouped query (lines 384-399): filter by the WHERE clause,
group by `(year, age_group, factor)`, sum the `total_mothers` column per
group, order by the grouping key. -/
def simpleQuery (rows : List Mother) (ff : Mother → Option Bool)
    (sf : Mother → Option String) (start_year end_year : Option Int) :
    List SRow :=
  (simpleKeys rows ff sf start_year end_year).map
    (simpleRow rows ff sf start_year end_year)

/-- The sentinel test and temp-table key of one result row in the first
pass of `get_factor_data_simple` (lines 411-426). -/
def simpleTarget (row : SRow) : Option (String × Int) :=
  match row.age_group with
  | none => none
  | some ag =>
    if ag = "" ∨ pyLower ag = "total" ∨ pyLower ag = "not stated" then none
    else some (ag, row.year)

/-- One iteration of the first pass of `get_factor_data_simple`: skip
sentinel rows; otherwise record the year and overwrite
`temp_data[(age_group, year)][has_factor]` with the group's summed count
(`int(...) if ... else 0`; `bool(None)` is `False`). -/
def simpleStep1 (acc : List Int × List ((String × Int) × (Int × Int)))
    (row : SRow) : List Int × List ((String × Int) × (Int × Int)) :=
  match simpleTarget row with
  | none => acc
  | some (ag, y) =>
    let hf := row.has_factor.getD false
    let count := pyIntOrZero row.total_mothers
    let cur := (dget acc.2 (ag, y)).getD (0, 0)
    let cur2 := if hf then (count, cur.2) else (cur.1, count)
    (acc.1 ++ [y], dset acc.2 (ag, y) cur2)

/-- The first pass of `get_factor_data_simple` over the query result:
the years list and `temp_data`. -/
def simplePass1 (qrows : List SRow) :
    List Int × List ((String × Int) × (Int × Int)) :=
  qrows.foldl simpleStep1 ([], [])

/-- One iteration of the second pass of `get_factor_data_simple` (lines
429-442): skip the group when `total == 0`; otherwise insert the `"Yes"`
percentage then the `"No"` percentage
(`counts[hf] / total * 100 if total > 0 else 0.0`). -/
def simpleStep2 (data : AgeMap) (item : (String × Int) × (Int × Int)) :
    AgeMap :=
  let ag := item.1.1
  let y := item.1.2
  let cT := item.2.1
  let cF := item.2.2
  let total := cT + cF
  if total = 0 then data
  else
    let pYes : ℚ := if total > 0 then (cT : ℚ) / (total : ℚ) * 100 else 0
    let pNo : ℚ := if total > 0 then (cF : ℚ) / (total : ℚ) * 100 else 0
    dset3 (dset3 data ag "Yes" y pYes) ag "No" y pNo

/-- `get_factor_data_simple(db, factor_name, age_group, start_year,
end_year)` (`scenario_controller.py` lines 328-447). -/
def getFactorDataSimple (rows : List Mother) (factor_name : String)
    (age_group : Option String) (start_year end_year : Option Int) :
    FactorResult :=
  match factorFields factor_name with
  | none =>
    { factor := factor_name, user_age_group := age_group, years := [],
      age_groups := [] }
  | some (ff, sf) =>
    let qrows := simpleQuery rows ff sf start_year end_year
    let acc := simplePass1 qrows
    { factor := factor_name, user_age_group := age_group,
      years := sortDedup acc.1,
      age_groups := acc.2.foldl simpleStep2 [] }

/-- The last value written into `temp_data[(ag, y)][b]` by the first
pass, if any: the summed count of the last query row that targets
`(ag, y)` with factor boolean `b`. -/
def lastCount (qrows : List SRow) (ag : String) (y : Int) (b : Bool) :
    Option Int :=
  (qrows.reverse.find? (fun q =>
      decide (simpleTarget q = some (ag, y)) &&
        (q.has_factor.getD false == b))).map
    (fun q => pyIntOrZero q.total_mothers)

/-- The cell values one `temp_data` item writes in the second pass:
nothing when its total is zero (the group is skipped) or the cell is not
its own; otherwise the Yes or No share of the total. -/
def itemWrites (item : (String × Int) × (Int × Int)) (ag sg : String)
    (y : Int) : Option ℚ :=
  let t := item.2.1 + item.2.2
  if item.1.1 = ag ∧ item.1.2 = y ∧ t ≠ 0 then
    if sg = "Yes" then
      some (if 0 < t then (item.2.1 : ℚ) / (t : ℚ) * 100 else 0)
    else if sg = "No" then
      some (if 0 < t then (item.2.2 : ℚ) / (t : ℚ) * 100 else 0)
    else none
  else none

/-! ### The scenario snapshot queries -/

/-- `{total, avg_percentage}` statistics: `COUNT(id)` and
`AVG(percentage)` over a set of rows, with the Python null-coalescing
(`stats.total if stats else 0`, `float(...) if ... else 0.0`; an
aggregate SELECT always returns one row, so `stats` is never `None`). -/
structure Stats where
  total : Nat
  avg_percentage : ℚ
  deriving DecidableEq, Repr

/-- The `count(id)` / `avg(percentage)` aggregate over a filtered set of
`mother` rows. -/
def statsOfMothers (rows : List Mother) : Stats :=
  { total := rows.length,
    avg_percentage := pyFloatOrZero (sqlAvg (rows.map Mother.percentage)) }

/-- The conjunctive profile filter built by both
`get_preparing_scenario_data` (lines 28-40) and the `"preparing"` branch
of `get_comparison_data` (lines 23-35): one condition per truthy string
attribute (`if age_group:` ...) or non-`None` boolean attribute
(`if diabetes is not None:`); an SQL `=` against a NULL column never
matches. -/
def motherProfileConds (age_group smoking bmi : Option String)
    (diabetes hypertension : Option Bool) (lhd : Option String)
    (r : Mother) : Bool :=
  (!pyTruthyStr age_group || decide (r.age_group = age_group)) &&
  (!pyTruthyStr smoking || decide (r.smoking_status = smoking)) &&
  (!pyTruthyStr bmi || decide (r.bmi_category = bmi)) &&
  (!diabetes.isSome || decide (r.diabetes_pre = diabetes)) &&
  (!hypertension.isSome || decide (r.hypertension_pre = hypertension)) &&
  (!pyTruthyStr lhd || decide (r.lhd = lhd))

/-- Whether any profile filter was supplied (the built `filters` /
`user_filters` list is non-empty). -/
def motherProfileAny (age_group smoking bmi : Option String)
    (diabetes hypertension : Option Bool) (lhd : Option String) : Bool :=
  pyTruthyStr age_group || pyTruthyStr smoking || pyTruthyStr bmi ||
    diabetes.isSome || hypertension.isSome || pyTruthyStr lhd

/-- One entry of the `complications` list of
`get_preparing_scenario_data`. -/
structure CompEntry where
  type : Option String
  count : Nat
  percentage : ℚ
  deriving DecidableEq, Repr

/-- The complication-risk query of `get_preparing_scenario_data` (lines
57-74): year-2023 rows grouped by `complication_type` (all NULLs in one
group); the query has no ORDER BY, so groups are modelled in
first-occurrence order. -/
def complicationGroups (crows : List Complication) : List CompEntry :=
  let sel := crows.filter (fun c => decide (c.year = 2023))
  ((sel.map Complication.complication_type).dedup).map (fun t =>
    { type := t,
      count := (sel.filter (fun c =>
        decide (c.complication_type = t))).length,
      percentage := pyFloatOrZero (sqlAvg
        ((sel.filter (fun c => decide (c.complication_type = t))).map
          Complication.percentage)) })

/-- The dictionary returned by `get_preparing_scenario_data`. -/
structure PreparingResult where
  mothers : Stats
  complications : List CompEntry
  overall_average : Stats
  deriving DecidableEq, Repr

/-- `get_preparing_scenario_data(db, age_group, smoking, bmi, diabetes,
hypertension, lhd)` (`scenario_controller.py` lines 15-89): year-2023
mothers statistics under the profile filters, complication risks, and the
unfiltered year-2023 baseline.  (The source guards `if filters:` before
adding the conjunction; with no supplied attribute `motherProfileConds`
is identically `true`, so applying it unconditionally is the same
query.) -/
def getPreparingScenarioData (mrows : List Mother)
    (crows : List Complication) (age_group smoking bmi : Option String)
    (diabetes hypertension : Option Bool) (lhd : Option String) :
    PreparingResult :=
  { mothers := statsOfMothers (mrows.filter (fun r =>
      decide (r.year = 2023) && motherProfileConds age_group smoking bmi
        diabetes hypertension lhd r)),
    complications := complicationGroups crows,
    overall_average := statsOfMothers (mrows.filter (fun r =>
      decide (r.year = 2023))) }

/-- The `filters` dictionary passed to `get_comparison_data`; a missing
dictionary key reads as `none` (`filters.get(...)`). -/
structure ComparisonFilters where
  age_group : Option String
  smoking : Option String
  bmi : Option String
  diabetes : Option Bool
  hypertension : Option Bool
  lhd : Option String
  deriving DecidableEq, Repr

/-- The dictionary returned by `get_comparison_data`; `none` models an
entry left as `{}`. -/
structure ComparisonResult where
  user_stats : Option Stats
  overall_average : Option Stats
  deriving DecidableEq, Repr

/-- `get_comparison_data(db, scenario, filters)`
(`comparison_controller.py` lines 9-67).  In the `"preparing"` branch the
user query is only run `if user_filters:` — when at least one profile
attribute was supplied — and carries no year condition; the baseline is
fixed to year 2023.  Any other scenario leaves both entries as `{}`. -/
def getComparisonData (scenario : String) (f : ComparisonFilters)
    (rows : List Mother) : ComparisonResult :=
  if scenario = "preparing" then
    { user_stats :=
        if motherProfileAny f.age_group f.smoking f.bmi f.diabetes
            f.hypertension f.lhd then
          some (statsOfMothers (rows.filter
            (motherProfileConds f.age_group f.smoking f.bmi f.diabetes
              f.hypertension f.lhd)))
        else none,
      overall_average := some (statsOfMothers (rows.filter (fun r =>
        decide (r.year = 2023)))) }
  else { user_stats := none, overall_average := none }

/-- Concrete-row constructor used by the concrete evaluations below:
a `mother` row with the given age group, pre-existing-diabetes flag,
diabetes sub-group, year, total and percentage, all other columns NULL. -/
def mkMother (ag : Option String) (dp : Option Bool) (dsg : Option String)
    (y : Int) (tm : Option Int) (pct : Option ℚ) : Mother :=
  { age_group := ag, smoking_status := none, bmi_category := none,
    diabetes_pre := dp, hypertension_pre := none, diabetes_subgroup := dsg,
    hypertension_subgroup := none, lhd := none, year := y,
    total_mothers := tm, percentage := pct }

/-! ### Lookup lemmas for the nested output maps -/

theorem dget_nil {α β : Type} [DecidableEq α] (k : α) :
    dget ([] : List (α × β)) k = none := rfl

theorem dget_cons {α β : Type} [DecidableEq α] (p : α × β) (d : List (α × β))
    (k : α) :
    dget (p :: d) k = if p.1 = k then some p.2 else dget d k := by
  by_cases h : p.1 = k <;> simp [dget, List.find?_cons, h]

theorem dget_dset {α β : Type} [DecidableEq α] (d : List (α × β)) (k : α)
    (v : β) (k' : α) :
    dget (dset d k v) k' = if k' = k then some v else dget d k' := by
  induction d with
  | nil =>
    by_cases h : k' = k
    · subst h; simp [dset, dget_cons]
    · simp [dset, dget_cons, dget_nil, h, Ne.symm h]
  | cons p rest ih =>
    by_cases hp : p.1 = k
    · by_cases h : k' = k
      · subst h; simp [dset, hp, dget_cons]
      · have hpk : ¬ p.1 = k' := by rw [hp]; exact Ne.symm h
        simp [dset, hp, dget_cons, h, Ne.symm h, hpk]
    · by_cases hpk : p.1 = k'
      · have h : ¬ k' = k := fun hh => hp (hpk.trans hh)
        simp [dset, hp, dget_cons, hpk, h]
      · simp [dset, hp, dget_cons, hpk, ih]

/-- A value is a key of the dict iff lookup on it succeeds. -/
theorem mem_keys_iff_dget {α β : Type} [DecidableEq α] (d : List (α × β))
    (k : α) :
    k ∈ d.map Prod.fst ↔ (dget d k).isSome := by
  induction d with
  | nil => simp [dget_nil]
  | cons p rest ih =>
    by_cases hp : p.1 = k
    · simp [List.map_cons, List.mem_cons, dget_cons, hp]
    · simp [List.map_cons, List.mem_cons, dget_cons, hp, ih, Ne.symm hp]

/-- Every key of `dset d k v` is `k` or a key of `d`. -/
theorem keys_dset {α β : Type} [DecidableEq α] (d : List (α × β)) (k : α)
    (v : β) (x : α) (hx : x ∈ (dset d k v).map Prod.fst) :
    x = k ∨ x ∈ d.map Prod.fst := by
  by_cases hxk : x = k
  · exact Or.inl hxk
  · right
    rw [mem_keys_iff_dget] at hx ⊢
    rwa [dget_dset, if_neg hxk] at hx

/-- `dset` preserves the no-duplicate-keys invariant. -/
theorem nodupKeys_dset {α β : Type} [DecidableEq α] (d : List (α × β)) (k : α)
    (v : β) (hd : (d.map Prod.fst).Nodup) :
    ((dset d k v).map Prod.fst).Nodup := by
  induction d with
  | nil => simp [dset]
  | cons p rest ih =>
    rw [List.map_cons] at hd
    rcases List.nodup_cons.mp hd with ⟨hp1, hrest⟩
    by_cases hp : p.1 = k
    · rw [dset, if_pos hp, List.map_cons]
      exact List.nodup_cons.mpr ⟨by rw [← hp]; exact hp1, hrest⟩
    · rw [dset, if_neg hp, List.map_cons]
      refine List.nodup_cons.mpr ⟨?_, ih hrest⟩
      intro hmem
      rcases keys_dset rest k v p.1 hmem with h | h
      · exact hp h
      · exact hp1 h

theorem sortDedup_sorted (ys : List Int) :
    (sortDedup ys).Sorted (· ≤ ·) :=
  List.sorted_insertionSort _ _

theorem sortDedup_nodup (ys : List Int) : (sortDedup ys).Nodup :=
  ((List.perm_insertionSort _ ys.dedup).nodup_iff).mpr ys.nodup_dedup

theorem mem_sortDedup (ys : List Int) (y : Int) :
    y ∈ sortDedup ys ↔ y ∈ ys := by
  rw [sortDedup]
  rw [(List.perm_insertionSort _ ys.dedup).mem_iff]
  exact List.mem_dedup

theorem dget3_dset3 (d : AgeMap) (ag sg : String) (y : Int) (v : ℚ)
    (ag' sg' : String) (y' : Int) :
    dget3 (dset3 d ag sg y v) ag' sg' y' =
      if ag' = ag ∧ sg' = sg ∧ y' = y then some v
      else dget3 d ag' sg' y' := by
  unfold dget3 dset3
  rw [dget_dset]
  by_cases hag : ag' = ag
  · rw [if_pos hag, Option.some_bind, dget_dset]
    by_cases hsg : sg' = sg
    · rw [if_pos hsg, Option.some_bind, dget_dset]
      by_cases hy : y' = y
      · rw [if_pos hy, if_pos ⟨hag, hsg, hy⟩]
      · rw [if_neg hy, if_neg (by simp [hy]), hag, hsg]
        cases hm : dget d ag with
        | none => simp [dget_nil]
        | some m =>
          simp only [Option.getD_some, Option.some_bind]
          cases hym : dget m sg with
          | none => simp [dget_nil]
          | some ym => simp
    · rw [if_neg hsg, if_neg (by simp [hsg]), hag]
      cases hm : dget d ag with
      | none => simp [dget_nil]
      | some m => simp [hsg]
  · rw [if_neg hag, if_neg (by simp [hag])]

theorem mem_of_dget {α β : Type} [DecidableEq α] {d : List (α × β)} {k : α}
    {v : β} (h : dget d k = some v) : (k, v) ∈ d := by
  induction d with
  | nil => simp [dget_nil] at h
  | cons p rest ih =>
    rw [dget_cons] at h
    by_cases hp : p.1 = k
    · rw [if_pos hp] at h
      have hkv : (k, v) = p := by
        cases p with
        | mk a b =>
          simp only at hp h
          obtain rfl : a = k := hp
          obtain rfl : b = v := by simpa using h
          rfl
      exact List.mem_cons.mpr (Or.inl hkv)
    · rw [if_neg hp] at h
      exact List.mem_cons_of_mem _ (ih h)

theorem dget_of_mem_nodup {α β : Type} [DecidableEq α] {d : List (α × β)}
    {k : α} {v : β} (h : (k, v) ∈ d) (hd : (d.map Prod.fst).Nodup) :
    dget d k = some v := by
  induction d with
  | nil => simp at h
  | cons p rest ih =>
    rw [List.map_cons] at hd
    rcases List.nodup_cons.mp hd with ⟨hp1, hrest⟩
    rcases List.mem_cons.mp h with h | h
    · rw [dget_cons, if_pos (by rw [← h])]
      rw [← h]
    · have hpk : ¬ p.1 = k := by
        intro hh
        exact hp1 (by simpa [← hh] using List.mem_map_of_mem Prod.fst h)
      rw [dget_cons, if_neg hpk]
      exact ih h hrest

theorem eq_of_mem_nodupKeys {α β : Type} [DecidableEq α]
    {d : List (α × β)} {k : α} {v w : β} (hv : (k, v) ∈ d) (hw : (k, w) ∈ d)
    (hd : (d.map Prod.fst).Nodup) : v = w := by
  have h1 := dget_of_mem_nodup hv hd
  have h2 := dget_of_mem_nodup hw hd
  rw [h1] at h2
  exact Option.some_inj.mp h2

/-- If exactly one element of `l` satisfies `p`, scanning the reversed
list finds it. -/
theorem find?_reverse_of_unique {α : Type} {l : List α} {p : α → Bool}
    {a : α} (ha : a ∈ l) (hpa : p a = true)
    (huniq : ∀ b ∈ l, p b = true → b = a) :
    l.reverse.find? p = some a := by
  cases h : l.reverse.find? p with
  | none =>
    rw [List.find?_eq_none] at h
    exact absurd hpa (h a (List.mem_reverse.mpr ha))
  | some b =>
    have hb := List.mem_reverse.mp (List.mem_of_find?_eq_some h)
    rw [huniq b hb (List.find?_some h)]

/-! ### The Python loop of `get_factor_data`, characterized -/

theorem detailedTarget_eq_some {row : FRow} {ag sg : String} {y : Int}
    (h : detailedTarget row = some (ag, sg, y)) :
    row.age_group = some ag ∧ ag ≠ "" ∧ pyLower ag ≠ "total" ∧
      pyLower ag ≠ "not stated" ∧ sg = sgLabel row.sub_group ∧
      y = row.year := by
  cases hag : row.age_group with
  | none => simp [detailedTarget, hag] at h
  | some a =>
    simp only [detailedTarget, hag] at h
    by_cases hg : a = "" ∨ pyLower a = "total" ∨ pyLower a = "not stated"
    · rw [if_pos hg] at h
      simp at h
    · rw [if_neg hg] at h
      push_neg at hg
      have h1 : a = ag ∧ sgLabel row.sub_group = sg ∧ row.year = y := by
        simpa using h
      obtain ⟨rfl, rfl, rfl⟩ := h1
      exact ⟨rfl, hg.1, hg.2.1, hg.2.2, rfl, rfl⟩

theorem foldl_detailedStep_years (qrows : List FRow)
    (acc : List Int × AgeMap) :
    (qrows.foldl detailedStep acc).1 =
      acc.1 ++ (qrows.filter (fun q => (detailedTarget q).isSome)).map
        FRow.year := by
  induction qrows generalizing acc with
  | nil => simp
  | cons row rest ih =>
    rw [List.foldl_cons, ih]
    cases ht : detailedTarget row with
    | none => simp [detailedStep, ht]
    | some t =>
      obtain ⟨ag, sg, y⟩ := t
      have hy : y = row.year := (detailedTarget_eq_some ht).2.2.2.2.2
      simp [detailedStep, ht, hy]

theorem dget3_foldl_detailedStep (qrows : List FRow)
    (acc : List Int × AgeMap) (ag sg : String) (y : Int) :
    dget3 (qrows.foldl detailedStep acc).2 ag sg y =
      ((qrows.reverse.find?
          (fun row => detailedTarget row = some (ag, sg, y))).map
        (fun row => pyFloatOrZero row.avg_percentage)).or
        (dget3 acc.2 ag sg y) := by
  induction qrows generalizing acc with
  | nil => simp [Option.none_or]
  | cons row rest ih =>
    rw [List.foldl_cons, ih, List.reverse_cons, List.find?_append]
    by_cases hp : detailedTarget row = some (ag, sg, y)
    · have hstep : dget3 (detailedStep acc row).2 ag sg y =
          some (pyFloatOrZero row.avg_percentage) := by
        rw [detailedStep, hp]
        simp [dget3_dset3]
      rw [hstep]
      have hrow : List.find? (fun row => detailedTarget row =
          some (ag, sg, y)) [row] = some row := by
        simp [List.find?_cons, hp]
      rw [hrow]
      cases hfind : rest.reverse.find?
          (fun row => detailedTarget row = some (ag, sg, y)) <;>
        simp [Option.or]
    · have hstep : dget3 (detailedStep acc row).2 ag sg y =
          dget3 acc.2 ag sg y := by
        cases ht : detailedTarget row with
        | none => rw [detailedStep, ht]
        | some t =>
          obtain ⟨a, s, yy⟩ := t
          rw [detailedStep, ht]
          simp only [dget3_dset3]
          rw [if_neg]
          intro hh
          exact hp (by rw [ht, hh.1, hh.2.1, hh.2.2])
      rw [hstep]
      have hrow : List.find? (fun row => detailedTarget row =
          some (ag, sg, y)) [row] = none := by
        simp [List.find?_cons, hp]
      rw [hrow, Option.or_none]

/-- Age-group keys written by the detailed loop all come from a
non-skipped row. -/
theorem keys_foldl_detailedStep (qrows : List FRow)
    (acc : List Int × AgeMap) (x : String)
    (hx : x ∈ (qrows.foldl detailedStep acc).2.map Prod.fst) :
    x ∈ acc.2.map Prod.fst ∨
      ∃ q ∈ qrows, ∃ sg y, detailedTarget q = some (x, sg, y) := by
  induction qrows generalizing acc with
  | nil => exact Or.inl hx
  | cons row rest ih =>
    rw [List.foldl_cons] at hx
    rcases ih _ hx with h1 | h1
    · cases ht : detailedTarget row with
      | none => rw [detailedStep, ht] at h1; exact Or.inl h1
      | some t =>
        obtain ⟨a, s, yy⟩ := t
        rw [detailedStep, ht] at h1
        simp only [dset3] at h1
        rcases keys_dset _ _ _ _ h1 with h2 | h2
        · exact Or.inr ⟨row, List.mem_cons_self row rest, s, yy,
            by rw [ht, h2]⟩
        · exact Or.inl h2
    · obtain ⟨q, hq, sg, y, hqt⟩ := h1
      exact Or.inr ⟨q, List.mem_cons_of_mem row hq, sg, y, hqt⟩

theorem mem_detailedKeys (rows : List Mother) (ff : Mother → Option Bool)
    (sf : Mother → Option String) (sub_group : Option (List String))
    (start_year end_year : Option Int)
    (k : Int × Option String × Option String) :
    k ∈ detailedKeys rows ff sf sub_group start_year end_year ↔
      ∃ r ∈ detailedSel rows ff sf sub_group start_year end_year,
        detailedKey sf r = k := by
  rw [detailedKeys, (List.perm_insertionSort _ _).mem_iff, List.mem_dedup,
    List.mem_map]

theorem nodup_detailedKeys (rows : List Mother) (ff : Mother → Option Bool)
    (sf : Mother → Option String) (sub_group : Option (List String))
    (start_year end_year : Option Int) :
    (detailedKeys rows ff sf sub_group start_year end_year).Nodup :=
  ((List.perm_insertionSort _ _).nodup_iff).mpr (List.nodup_dedup _)

/-! ### The two passes of `get_factor_data_simple`, characterized -/

theorem simpleTarget_eq_some {row : SRow} {ag : String} {y : Int}
    (h : simpleTarget row = some (ag, y)) :
    row.age_group = some ag ∧ ag ≠ "" ∧ pyLower ag ≠ "total" ∧
      pyLower ag ≠ "not stated" ∧ y = row.year := by
  cases hag : row.age_group with
  | none => simp [simpleTarget, hag] at h
  | some a =>
    simp only [simpleTarget, hag] at h
    by_cases hg : a = "" ∨ pyLower a = "total" ∨ pyLower a = "not stated"
    · rw [if_pos hg] at h
      simp at h
    · rw [if_neg hg] at h
      push_neg at hg
      have h1 : a = ag ∧ row.year = y := by simpa using h
      obtain ⟨rfl, rfl⟩ := h1
      exact ⟨rfl, hg.1, hg.2.1, hg.2.2, rfl⟩

theorem mem_simpleKeys (rows : List Mother) (ff : Mother → Option Bool)
    (sf : Mother → Option String) (start_year end_year : Option Int)
    (k : Int × Option String × Option Bool) :
    k ∈ simpleKeys rows ff sf start_year end_year ↔
      ∃ r ∈ simpleSel rows ff sf start_year end_year,
        simpleKey ff r = k := by
  rw [simpleKeys, (List.perm_insertionSort _ _).mem_iff, List.mem_dedup,
    List.mem_map]

theorem nodup_simpleKeys (rows : List Mother) (ff : Mother → Option Bool)
    (sf : Mother → Option String) (start_year end_year : Option Int) :
    (simpleKeys rows ff sf start_year end_year).Nodup :=
  ((List.perm_insertionSort _ _).nodup_iff).mpr (List.nodup_dedup _)

theorem foldl_simpleStep1_years (qrows : List SRow)
    (acc : List Int × List ((String × Int) × (Int × Int))) :
    (qrows.foldl simpleStep1 acc).1 =
      acc.1 ++ (qrows.filter (fun q => (simpleTarget q).isSome)).map
        SRow.year := by
  induction qrows generalizing acc with
  | nil => simp
  | cons row rest ih =>
    rw [List.foldl_cons, ih]
    cases ht : simpleTarget row with
    | none => simp [simpleStep1, ht]
    | some t =>
      obtain ⟨ag, y⟩ := t
      have hy : y = row.year := (simpleTarget_eq_some ht).2.2.2.2
      simp [simpleStep1, ht, hy]

/-- Temp-table keys written by the first pass all come from a non-skipped
row. -/
theorem keys_foldl_simpleStep1 (qrows : List SRow)
    (acc : List Int × List ((String × Int) × (Int × Int)))
    (x : String × Int)
    (hx : x ∈ (qrows.foldl simpleStep1 acc).2.map Prod.fst) :
    x ∈ acc.2.map Prod.fst ∨ ∃ q ∈ qrows, simpleTarget q = some x := by
  induction qrows generalizing acc with
  | nil => exact Or.inl hx
  | cons row rest ih =>
    rw [List.foldl_cons] at hx
    rcases ih _ hx with h1 | h1
    · cases ht : simpleTarget row with
      | none => rw [simpleStep1, ht] at h1; exact Or.inl h1
      | some t =>
        rw [simpleStep1, ht] at h1
        rcases keys_dset _ _ _ _ h1 with h2 | h2
        · exact Or.inr ⟨row, List.mem_cons_self row rest, by rw [ht, h2]⟩
        · exact Or.inl h2
    · obtain ⟨q, hq, hqt⟩ := h1
      exact Or.inr ⟨q, List.mem_cons_of_mem row hq, hqt⟩

theorem nodupKeys_foldl_simpleStep1 (qrows : List SRow)
    (acc : List Int × List ((String × Int) × (Int × Int)))
    (hacc : (acc.2.map Prod.fst).Nodup) :
    ((qrows.foldl simpleStep1 acc).2.map Prod.fst).Nodup := by
  induction qrows generalizing acc with
  | nil => exact hacc
  | cons row rest ih =>
    rw [List.foldl_cons]
    refine ih _ ?_
    cases ht : simpleTarget row with
    | none => rw [simpleStep1, ht]; exact hacc
    | some t => rw [simpleStep1, ht]; exact nodupKeys_dset _ _ _ hacc

theorem some_or_left {α : Type} (a : α) (o : Option α) :
    (some a).or o = some a := rfl

theorem getD_or_some {α : Type} (o : Option α) (c d : α) :
    (o.or (some c)).getD d = o.getD c := by cases o <;> rfl

theorem map_or_dist {α β : Type} (f : α → β) (o o' : Option α) :
    (o.or o').map f = (o.map f).or (o'.map f) := by cases o <;> rfl

/-- What the first pass leaves in `temp_data` at key `(ag, y)`: absent
when no row targets the key (and it was absent before); otherwise each
boolean slot holds the last written count, defaulting to the previous
contents (initially `(0, 0)`). -/
theorem dget_foldl_simpleStep1 (qrows : List SRow)
    (acc : List Int × List ((String × Int) × (Int × Int)))
    (ag : String) (y : Int) :
    dget (qrows.foldl simpleStep1 acc).2 (ag, y) =
      if qrows.any (fun q => decide (simpleTarget q = some (ag, y))) then
        some ((lastCount qrows ag y true).getD
            ((dget acc.2 (ag, y)).getD (0, 0)).1,
          (lastCount qrows ag y false).getD
            ((dget acc.2 (ag, y)).getD (0, 0)).2)
      else dget acc.2 (ag, y) := by
  induction qrows generalizing acc with
  | nil => simp [lastCount]
  | cons row rest ih =>
    rw [List.foldl_cons, ih]
    by_cases hhit : simpleTarget row = some (ag, y)
    · have hsingle : List.find? (fun q =>
          decide (simpleTarget q = some (ag, y)) &&
            (q.has_factor.getD false == row.has_factor.getD false)) [row] =
          some row := by
        simp [List.find?_cons, hhit]
      have hmiss : List.find? (fun q =>
          decide (simpleTarget q = some (ag, y)) &&
            (q.has_factor.getD false == !row.has_factor.getD false)) [row] =
          none := by
        simp [List.find?_cons, hhit]
      have hcount_same : lastCount (row :: rest) ag y
            (row.has_factor.getD false) =
          (lastCount rest ag y (row.has_factor.getD false)).or
            (some (pyIntOrZero row.total_mothers)) := by
        rw [lastCount, List.reverse_cons, List.find?_append, hsingle,
          map_or_dist, lastCount]
        rfl
      have hcount_other : lastCount (row :: rest) ag y
            (!row.has_factor.getD false) =
          lastCount rest ag y (!row.has_factor.getD false) := by
        rw [lastCount, List.reverse_cons, List.find?_append, hmiss,
          Option.or_none, lastCount]
      have hany : (row :: rest).any (fun q =>
          decide (simpleTarget q = some (ag, y))) = true := by
        simp [List.any_cons, hhit]
      have hstep2 : (simpleStep1 acc row).2 =
          dset acc.2 (ag, y)
            (if row.has_factor.getD false then
              (pyIntOrZero row.total_mothers,
                ((dget acc.2 (ag, y)).getD (0, 0)).2)
            else (((dget acc.2 (ag, y)).getD (0, 0)).1,
              pyIntOrZero row.total_mothers)) := by
        rw [simpleStep1, hhit]
      have hcur : dget (simpleStep1 acc row).2 (ag, y) =
          some (if row.has_factor.getD false then
              (pyIntOrZero row.total_mothers,
                ((dget acc.2 (ag, y)).getD (0, 0)).2)
            else (((dget acc.2 (ag, y)).getD (0, 0)).1,
              pyIntOrZero row.total_mothers)) := by
        rw [hstep2, dget_dset, if_pos rfl]
      rw [hany, if_pos rfl, hcur]
      by_cases hrest : rest.any (fun q =>
          decide (simpleTarget q = some (ag, y))) = true
      · rw [if_pos hrest]
        cases hb : row.has_factor.getD false with
        | true =>
          rw [hb] at hcount_same hcount_other
          simp only [Bool.not_true] at hcount_other
          rw [hcount_same, hcount_other, getD_or_some]
          simp
        | false =>
          rw [hb] at hcount_same hcount_other
          simp only [Bool.not_false] at hcount_other
          rw [hcount_same, hcount_other, getD_or_some]
          simp
      · rw [if_neg hrest]
        have hnone : ∀ b, lastCount rest ag y b = none := by
          intro b
          rw [lastCount]
          have : List.find? (fun q =>
              decide (simpleTarget q = some (ag, y)) &&
                (q.has_factor.getD false == b)) rest.reverse = none := by
            rw [List.find?_eq_none]
            intro q hq
            have hq2 : ¬ (decide (simpleTarget q = some (ag, y)) = true) := by
              intro hdec
              exact hrest (List.any_eq_true.mpr
                ⟨q, List.mem_reverse.mp hq, hdec⟩)
            simp only [Bool.and_eq_true]
            intro hand
            exact hq2 hand.1
          rw [this]
          rfl
        cases hb : row.has_factor.getD false with
        | true =>
          rw [hb] at hcount_same hcount_other
          simp only [Bool.not_true] at hcount_other
          rw [hcount_same, hcount_other, hnone, hnone, Option.none_or]
          simp
        | false =>
          rw [hb] at hcount_same hcount_other
          simp only [Bool.not_false] at hcount_other
          rw [hcount_same, hcount_other, hnone, hnone, Option.none_or]
          simp
    · have hstep : dget (simpleStep1 acc row).2 (ag, y) =
          dget acc.2 (ag, y) := by
        cases ht : simpleTarget row with
        | none => rw [simpleStep1, ht]
        | some t =>
          rw [simpleStep1, ht]
          simp only
          rw [dget_dset, if_neg]
          intro he
          exact hhit (by rw [ht, he])
      have hcount : ∀ b, lastCount (row :: rest) ag y b =
          lastCount rest ag y b := by
        intro b
        rw [lastCount, List.reverse_cons, List.find?_append]
        have hr : List.find? (fun q =>
            decide (simpleTarget q = some (ag, y)) &&
              (q.has_factor.getD false == b)) [row] = none := by
          simp [List.find?_cons, hhit]
        rw [hr, Option.or_none, lastCount]
      have hany : (row :: rest).any (fun q =>
          decide (simpleTarget q = some (ag, y))) =
          rest.any (fun q => decide (simpleTarget q = some (ag, y))) := by
        simp [List.any_cons, hhit]
      rw [hstep, hcount, hcount, hany]

theorem dget3_simpleStep2 (data : AgeMap)
    (item : (String × Int) × (Int × Int)) (ag sg : String) (y : Int) :
    dget3 (simpleStep2 data item) ag sg y =
      (itemWrites item ag sg y).or (dget3 data ag sg y) := by
  obtain ⟨⟨a, yy⟩, cT, cF⟩ := item
  unfold simpleStep2 itemWrites
  simp only
  by_cases htot : cT + cF = 0
  · rw [if_pos htot]
    have hno : ¬ (a = ag ∧ yy = y ∧ cT + cF ≠ 0) := by
      intro h
      exact h.2.2 htot
    rw [if_neg hno, Option.none_or]
  · rw [if_neg htot, dget3_dset3, dget3_dset3]
    by_cases hag : ag = a <;> by_cases hy : y = yy <;>
        by_cases hsgY : sg = "Yes" <;> by_cases hsgN : sg = "No" <;>
      simp_all [some_or_left, Option.none_or, eq_comm,
        show ("Yes" : String) ≠ "No" by decide]

theorem findSome?_append_or {α β : Type} (l₁ l₂ : List α)
    (f : α → Option β) :
    (l₁ ++ l₂).findSome? f = (l₁.findSome? f).or (l₂.findSome? f) := by
  induction l₁ with
  | nil => rw [List.nil_append, List.findSome?_nil, Option.none_or]
  | cons a l ih =>
    rw [List.cons_append, List.findSome?_cons, List.findSome?_cons]
    cases hfa : f a with
    | none => exact ih
    | some b => rw [some_or_left]

theorem dget3_foldl_simpleStep2
    (items : List ((String × Int) × (Int × Int))) (data : AgeMap)
    (ag sg : String) (y : Int) :
    dget3 (items.foldl simpleStep2 data) ag sg y =
      (items.reverse.findSome? (fun it => itemWrites it ag sg y)).or
        (dget3 data ag sg y) := by
  induction items generalizing data with
  | nil => rw [List.foldl_nil, List.reverse_nil, List.findSome?_nil,
      Option.none_or]
  | cons it rest ih =>
    rw [List.foldl_cons, ih, dget3_simpleStep2, List.reverse_cons,
      findSome?_append_or, Option.or_assoc]
    have : List.findSome? (fun it => itemWrites it ag sg y) [it] =
        itemWrites it ag sg y := by
      rw [List.findSome?_cons]
      cases itemWrites it ag sg y <;> rfl
    rw [this]

/-- Age-group keys written by the second pass all come from a temp-table
item with that age group. -/
theorem keys_foldl_simpleStep2
    (items : List ((String × Int) × (Int × Int))) (data : AgeMap)
    (x : String)
    (hx : x ∈ (items.foldl simpleStep2 data).map Prod.fst) :
    x ∈ data.map Prod.fst ∨ ∃ it ∈ items, it.1.1 = x := by
  induction items generalizing data with
  | nil => exact Or.inl hx
  | cons it rest ih =>
    rw [List.foldl_cons] at hx
    rcases ih _ hx with h1 | h1
    · obtain ⟨⟨a, yy⟩, cT, cF⟩ := it
      unfold simpleStep2 at h1
      simp only at h1
      by_cases htot : cT + cF = 0
      · rw [if_pos htot] at h1
        exact Or.inl h1
      · rw [if_neg htot] at h1
        simp only [dset3] at h1
        rcases keys_dset _ _ _ _ h1 with h2 | h2
        · exact Or.inr ⟨((a, yy), cT, cF), List.mem_cons_self _ _, h2.symm⟩
        · rcases keys_dset _ _ _ _ h2 with h3 | h3
          · exact Or.inr ⟨((a, yy), cT, cF), List.mem_cons_self _ _,
              h3.symm⟩
          · exact Or.inl h3
    · obtain ⟨it2, hit2, hx2⟩ := h1
      exact Or.inr ⟨it2, List.mem_cons_of_mem it hit2, hx2⟩

/-! ### Claim theorems -/

/-- C5: for every `factor_name` other than `"diabetes"` and
`"hypertension"`, both `get_factor_data` and `get_factor_data_simple`
return `years = []` and `age_groups = {}` exactly, regardless of all
other parameters and of the database contents, and do not raise. -/
theorem unrecognized_factor_empty (factor_name : String)
    (h1 : factor_name ≠ "diabetes") (h2 : factor_name ≠ "hypertension")
    (rows : List Mother) (age_group : Option String)
    (start_year end_year : Option Int)
    (sub_group : Option (List String)) :
    (getFactorData rows factor_name age_group start_year end_year
        sub_group).years = [] ∧
    (getFactorData rows factor_name age_group start_year end_year
        sub_group).age_groups = [] ∧
    (getFactorDataSimple rows factor_name age_group start_year
        end_year).years = [] ∧
    (getFactorDataSimple rows factor_name age_group start_year
        end_year).age_groups = [] := by
  have hf : factorFields factor_name = none := by
    rw [factorFields, if_neg h1, if_neg h2]
  simp [getFactorData, getFactorDataSimple, hf]

/-- Witness for C5 at the concrete factor name `"smoking"`. -/
theorem unrecognized_factor_empty_witness :
    (getFactorData [] "smoking" none none none none).years = [] ∧
    (getFactorData [] "smoking" none none none none).age_groups = [] ∧
    (getFactorDataSimple [] "smoking" none none none).years = [] ∧
    (getFactorDataSimple [] "smoking" none none none).age_groups = [] :=
  unrecognized_factor_empty "smoking" (by decide) (by decide) [] none none
    none none

/-- C9: the `age_group` argument of `get_factor_data` affects neither row
selection nor aggregation — two calls differing only in it return equal
`years` and `age_groups` — and it is only echoed back as
`user_age_group`. -/
theorem age_group_hint_no_effect (rows : List Mother)
    (factor_name : String) (ag1 ag2 : Option String)
    (start_year end_year : Option Int)
    (sub_group : Option (List String)) :
    (getFactorData rows factor_name ag1 start_year end_year
        sub_group).years =
      (getFactorData rows factor_name ag2 start_year end_year
        sub_group).years ∧
    (getFactorData rows factor_name ag1 start_year end_year
        sub_group).age_groups =
      (getFactorData rows factor_name ag2 start_year end_year
        sub_group).age_groups ∧
    (getFactorData rows factor_name ag1 start_year end_year
        sub_group).user_age_group = ag1 := by
  cases hf : factorFields factor_name with
  | none => simp [getFactorData, hf]
  | some p =>
    obtain ⟨ff, sf⟩ := p
    simp [getFactorData, hf]

/-- C6: no key of the returned `age_groups`, in either view,
case-insensitively equals `"total"` or `"not stated"`; rows with such an
age group are discarded before output construction. -/
theorem no_sentinel_age_group_keys (rows : List Mother)
    (factor_name : String) (age_group : Option String)
    (start_year end_year : Option Int) (sub_group : Option (List String))
    (k : String) :
    (k ∈ (getFactorData rows factor_name age_group start_year end_year
        sub_group).age_groups.map Prod.fst →
      pyLower k ≠ "total" ∧ pyLower k ≠ "not stated") ∧
    (k ∈ (getFactorDataSimple rows factor_name age_group start_year
        end_year).age_groups.map Prod.fst →
      pyLower k ≠ "total" ∧ pyLower k ≠ "not stated") := by
  constructor
  · intro hk
    cases hf : factorFields factor_name with
    | none =>
      simp only [getFactorData, hf] at hk
      simp at hk
    | some p =>
      obtain ⟨ff, sf⟩ := p
      simp only [getFactorData, hf] at hk
      rcases keys_foldl_detailedStep _ _ _ hk with h | h
      · simp at h
      · obtain ⟨q, hq, sg, y, ht⟩ := h
        have hp := detailedTarget_eq_some ht
        exact ⟨hp.2.2.1, hp.2.2.2.1⟩
  · intro hk
    cases hf : factorFields factor_name with
    | none =>
      simp only [getFactorDataSimple, hf] at hk
      simp at hk
    | some p =>
      obtain ⟨ff, sf⟩ := p
      simp only [getFactorDataSimple, hf] at hk
      rcases keys_foldl_simpleStep2 _ _ _ hk with h | h
      · simp at h
      · obtain ⟨⟨⟨kx, ky⟩, cc⟩, hit, hx⟩ := h
        have h1 : ((kx, ky) : String × Int) ∈
            (simplePass1 (simpleQuery rows ff sf start_year
              end_year)).2.map Prod.fst :=
          List.mem_map_of_mem Prod.fst hit
        rcases keys_foldl_simpleStep1 _ _ _ h1 with h2 | h2
        · simp at h2
        · obtain ⟨q, hq, ht⟩ := h2
          have hp := simpleTarget_eq_some ht
          simp only at hx
          rw [← hx]
          exact ⟨hp.2.2.1, hp.2.2.2.1⟩

/-- Witness for C6 at a concrete database containing both a sentinel row
and a regular row. -/
theorem no_sentinel_age_group_keys_witness :
    pyLower "20-24" ≠ "total" ∧ pyLower "20-24" ≠ "not stated" :=
  (no_sentinel_age_group_keys
    [mkMother (some "Total") (some true) none 2023 (some 3) (some 5),
     mkMother (some "20-24") (some true) none 2023 (some 3) (some 5)]
    "diabetes" none none none none "20-24").1 (by decide)

/-- C7: in both views `years` is sorted ascending with no duplicates,
and is exactly the set of distinct years among the query groups that
survive the sentinel age-group discard. -/
theorem years_sorted_distinct (rows : List Mother) (factor_name : String)
    (age_group : Option String) (start_year end_year : Option Int)
    (sub_group : Option (List String)) :
    (getFactorData rows factor_name age_group start_year end_year
        sub_group).years.Sorted (· ≤ ·) ∧
    (getFactorData rows factor_name age_group start_year end_year
        sub_group).years.Nodup ∧
    (getFactorDataSimple rows factor_name age_group start_year
        end_year).years.Sorted (· ≤ ·) ∧
    (getFactorDataSimple rows factor_name age_group start_year
        end_year).years.Nodup ∧
    (∀ ff sf, factorFields factor_name = some (ff, sf) →
      ∀ y : Int,
        (y ∈ (getFactorData rows factor_name age_group start_year
            end_year sub_group).years ↔
          ∃ q ∈ detailedQuery rows ff sf sub_group start_year end_year,
            (detailedTarget q).isSome ∧ q.year = y) ∧
        (y ∈ (getFactorDataSimple rows factor_name age_group start_year
            end_year).years ↔
          ∃ q ∈ simpleQuery rows ff sf start_year end_year,
            (simpleTarget q).isSome ∧ q.year = y)) := by
  cases hf : factorFields factor_name with
  | none =>
    refine ⟨?_, ?_, ?_, ?_, ?_⟩ <;>
      simp [getFactorData, getFactorDataSimple, hf]
  | some p =>
    obtain ⟨ff0, sf0⟩ := p
    refine ⟨?_, ?_, ?_, ?_, ?_⟩
    · simp only [getFactorData, hf]
      exact sortDedup_sorted _
    · simp only [getFactorData, hf]
      exact sortDedup_nodup _
    · simp only [getFactorDataSimple, hf]
      exact sortDedup_sorted _
    · simp only [getFactorDataSimple, hf]
      exact sortDedup_nodup _
    · intro ff sf hff y
      have hp : (ff0, sf0) = (ff, sf) := Option.some_inj.mp hff
      obtain ⟨rfl, rfl⟩ : ff0 = ff ∧ sf0 = sf :=
        ⟨congrArg Prod.fst hp, congrArg Prod.snd hp⟩
      constructor
      · simp only [getFactorData, hf]
        rw [mem_sortDedup, foldl_detailedStep_years]
        simp only [List.nil_append, List.mem_map, List.mem_filter]
        constructor
        · rintro ⟨q, ⟨hq, hs⟩, hy⟩
          exact ⟨q, hq, by simpa using hs, hy⟩
        · rintro ⟨q, hq, hs, hy⟩
          exact ⟨q, ⟨hq, by simpa using hs⟩, hy⟩
      · simp only [getFactorDataSimple, hf, simplePass1]
        rw [mem_sortDedup, foldl_simpleStep1_years]
        simp only [List.nil_append, List.mem_map, List.mem_filter]
        constructor
        · rintro ⟨q, ⟨hq, hs⟩, hy⟩
          exact ⟨q, hq, by simpa using hs, hy⟩
        · rintro ⟨q, hq, hs, hy⟩
          exact ⟨q, ⟨hq, by simpa using hs⟩, hy⟩

/-- Witness for C7: the year of a surviving concrete group is in
`years`. -/
theorem years_sorted_distinct_witness :
    2023 ∈ (getFactorData
      [mkMother (some "20-24") (some true) none 2023 (some 3) (some 5)]
      "diabetes" none none none none).years :=
  ((years_sorted_distinct
      [mkMother (some "20-24") (some true) none 2023 (some 3) (some 5)]
      "diabetes" none none none none).2.2.2.2 Mother.diabetes_pre
      Mother.diabetes_subgroup rfl 2023).1.mpr (by decide)

/-- The year bounds of the detailed WHERE clause factor out of the other
conditions. -/
theorem detailedConditions_year_split (ff : Mother → Option Bool)
    (sf : Mother → Option String) (sub_group : Option (List String))
    (start_year end_year : Option Int) (r : Mother) :
    detailedConditions ff sf sub_group start_year end_year r =
      (detailedConditions ff sf sub_group none none r &&
        yearCond start_year end_year r.year) := by
  have h : yearCond none none r.year = true := rfl
  rw [detailedConditions, detailedConditions, h, Bool.and_true]

/-- The year bounds of the simple WHERE clause factor out of the other
conditions. -/
theorem simpleConditions_year_split (ff : Mother → Option Bool)
    (sf : Mother → Option String) (start_year end_year : Option Int)
    (r : Mother) :
    simpleConditions ff sf start_year end_year r =
      (simpleConditions ff sf none none r &&
        yearCond start_year end_year r.year) := by
  have h : yearCond none none r.year = true := rfl
  rw [simpleConditions, simpleConditions, h, Bool.and_true]

/-- `get_factor_data` with year bounds equals `get_factor_data` without
year bounds on the year-prefiltered rows. -/
theorem getFactorData_year_prefilter (rows : List Mother)
    (factor_name : String) (age_group : Option String)
    (start_year end_year : Option Int)
    (sub_group : Option (List String)) :
    getFactorData rows factor_name age_group start_year end_year
        sub_group =
      getFactorData (rows.filter (fun r =>
          yearCond start_year end_year r.year))
        factor_name age_group none none sub_group := by
  cases hf : factorFields factor_name with
  | none => simp [getFactorData, hf]
  | some p =>
    obtain ⟨ff, sf⟩ := p
    have hsel : detailedSel rows ff sf sub_group start_year end_year =
        detailedSel (rows.filter (fun r =>
          yearCond start_year end_year r.year)) ff sf sub_group none
          none := by
      rw [detailedSel, detailedSel, List.filter_filter]
      exact List.filter_congr (fun r _ =>
        detailedConditions_year_split ff sf sub_group start_year end_year
          r)
    have hrow : detailedRow rows ff sf sub_group start_year end_year =
        detailedRow (rows.filter (fun r =>
          yearCond start_year end_year r.year)) ff sf sub_group none
          none := by
      funext k
      rw [detailedRow, detailedRow, hsel]
    have hq : detailedQuery rows ff sf sub_group start_year end_year =
        detailedQuery (rows.filter (fun r =>
          yearCond start_year end_year r.year)) ff sf sub_group none
          none := by
      rw [detailedQuery, detailedQuery, detailedKeys, detailedKeys, hsel,
        hrow]
    simp only [getFactorData, hf, hq]

/-- `get_factor_data_simple` with year bounds equals
`get_factor_data_simple` without year bounds on the year-prefiltered
rows. -/
theorem getFactorDataSimple_year_prefilter (rows : List Mother)
    (factor_name : String) (age_group : Option String)
    (start_year end_year : Option Int) :
    getFactorDataSimple rows factor_name age_group start_year end_year =
      getFactorDataSimple (rows.filter (fun r =>
          yearCond start_year end_year r.year))
        factor_name age_group none none := by
  cases hf : factorFields factor_name with
  | none => simp [getFactorDataSimple, hf]
  | some p =>
    obtain ⟨ff, sf⟩ := p
    have hsel : simpleSel rows ff sf start_year end_year =
        simpleSel (rows.filter (fun r =>
          yearCond start_year end_year r.year)) ff sf none none := by
      rw [simpleSel, simpleSel, List.filter_filter]
      exact List.filter_congr (fun r _ =>
        simpleConditions_year_split ff sf start_year end_year r)
    have hrow : simpleRow rows ff sf start_year end_year =
        simpleRow (rows.filter (fun r =>
          yearCond start_year end_year r.year)) ff sf none none := by
      funext k
      rw [simpleRow, simpleRow, hsel]
    have hq : simpleQuery rows ff sf start_year end_year =
        simpleQuery (rows.filter (fun r =>
          yearCond start_year end_year r.year)) ff sf none none := by
      rw [simpleQuery, simpleQuery, simpleKeys, simpleKeys, hsel, hrow]
    simp only [getFactorDataSimple, hf, hq]

/-- C2 (amended): the year parameters use the inverted convention, with
Python truthiness — a zero bound behaves like an absent one.  For nonzero
bounds, in both views: both given → exactly the rows with
`end_year ≤ year ≤ start_year` are selected; only `start_year` → rows
with `year ≤ start_year`; only `end_year` → rows with
`year ≥ end_year`; each case stated as equality with the same call on
the prefiltered rows and no bounds.  Finally, `start_year = 0` behaves
exactly like an absent `start_year`. -/
theorem year_range_inverted (rows : List Mother) (factor_name : String)
    (age_group : Option String) (sub_group : Option (List String))
    (s e : Int) (hs : s ≠ 0) (he : e ≠ 0) :
    (getFactorData rows factor_name age_group (some s) (some e)
        sub_group =
      getFactorData (rows.filter (fun r =>
        decide (e ≤ r.year ∧ r.year ≤ s))) factor_name age_group none
        none sub_group) ∧
    (getFactorData rows factor_name age_group (some s) none sub_group =
      getFactorData (rows.filter (fun r => decide (r.year ≤ s)))
        factor_name age_group none none sub_group) ∧
    (getFactorData rows factor_name age_group none (some e) sub_group =
      getFactorData (rows.filter (fun r => decide (e ≤ r.year)))
        factor_name age_group none none sub_group) ∧
    (getFactorDataSimple rows factor_name age_group (some s) (some e) =
      getFactorDataSimple (rows.filter (fun r =>
        decide (e ≤ r.year ∧ r.year ≤ s))) factor_name age_group none
        none) ∧
    (getFactorDataSimple rows factor_name age_group (some s) none =
      getFactorDataSimple (rows.filter (fun r => decide (r.year ≤ s)))
        factor_name age_group none none) ∧
    (getFactorDataSimple rows factor_name age_group none (some e) =
      getFactorDataSimple (rows.filter (fun r => decide (e ≤ r.year)))
        factor_name age_group none none) ∧
    (getFactorData rows factor_name age_group (some 0) (some e)
        sub_group =
      getFactorData rows factor_name age_group none (some e) sub_group) ∧
    (getFactorDataSimple rows factor_name age_group (some 0) (some e) =
      getFactorDataSimple rows factor_name age_group none (some e)) := by
  have hb : (fun r : Mother => yearCond (some s) (some e) r.year) =
      fun r => decide (e ≤ r.year ∧ r.year ≤ s) := by
    funext r
    simp [yearCond, pyTruthyInt, hs, he]
  have hs1 : (fun r : Mother => yearCond (some s) none r.year) =
      fun r => decide (r.year ≤ s) := by
    funext r
    simp [yearCond, pyTruthyInt, hs]
  have he1 : (fun r : Mother => yearCond none (some e) r.year) =
      fun r => decide (e ≤ r.year) := by
    funext r
    simp [yearCond, pyTruthyInt, he]
  have hz : (fun r : Mother => yearCond (some 0) (some e) r.year) =
      fun r => yearCond none (some e) r.year := by
    funext r
    rfl
  refine ⟨?_, ?_, ?_, ?_, ?_, ?_, ?_, ?_⟩
  · rw [getFactorData_year_prefilter, hb]
  · rw [getFactorData_year_prefilter, hs1]
  · rw [getFactorData_year_prefilter, he1]
  · rw [getFactorDataSimple_year_prefilter, hb]
  · rw [getFactorDataSimple_year_prefilter, hs1]
  · rw [getFactorDataSimple_year_prefilter, he1]
  · rw [getFactorData_year_prefilter, hz, ← getFactorData_year_prefilter]
  · rw [getFactorDataSimple_year_prefilter, hz,
      ← getFactorDataSimple_year_prefilter]

/-- Witness for C2 at `start_year = 2023`, `end_year = 2019`, on a
database with years 2018 through 2024. -/
theorem year_range_inverted_witness :
    getFactorData
      [mkMother (some "20-24") (some true) none 2018 none (some 1),
       mkMother (some "20-24") (some true) none 2019 none (some 2),
       mkMother (some "20-24") (some true) none 2023 none (some 3),
       mkMother (some "20-24") (some true) none 2024 none (some 4)]
      "diabetes" none (some 2023) (some 2019) none =
    getFactorData
      ([mkMother (some "20-24") (some true) none 2018 none (some 1),
        mkMother (some "20-24") (some true) none 2019 none (some 2),
        mkMother (some "20-24") (some true) none 2023 none (some 3),
        mkMother (some "20-24") (some true) none 2024 none (some 4)].filter
        (fun r => decide ((2019 : Int) ≤ r.year ∧ r.year ≤ (2023 : Int))))
      "diabetes" none none none none :=
  (year_range_inverted
    [mkMother (some "20-24") (some true) none 2018 none (some 1),
     mkMother (some "20-24") (some true) none 2019 none (some 2),
     mkMother (some "20-24") (some true) none 2023 none (some 3),
     mkMother (some "20-24") (some true) none 2024 none (some 4)]
    "diabetes" none none 2023 2019 (by decide) (by decide)).1

/-- C2 counterexample: with `start_year = 0` and `end_year = 2019` both
given, a row of year 2025 is selected (its year appears in `years`),
although `2019 ≤ 2025 ≤ 0` does not hold — the claim's inclusive range
`[end_year, start_year]` reading fails because Python truthiness treats
`start_year = 0` as absent and applies the `year >= end_year` branch. -/
theorem year_range_counterexample :
    (getFactorData
      [mkMother (some "20-24") (some true) none 2025 none (some 3)]
      "diabetes" none (some 0) (some 2019) none).years = [2025] ∧
    ¬((2019 : Int) ≤ 2025 ∧ (2025 : Int) ≤ 0) :=
  ⟨by decide, by decide⟩

/-- C8: the sub-group filter of `get_factor_data_simple` excludes a row
exactly when its sub-group column is the literal string `"Total"`; a
NULL sub-group passes, and for such rows the WHERE clause reduces to the
remaining conditions, so they contribute to the counts. -/
theorem simple_total_subgroup_filter (ff : Mother → Option Bool)
    (sf : Mother → Option String) (start_year end_year : Option Int)
    (r : Mother) :
    (simpleSubgroupCond sf r = false ↔ sf r = some "Total") ∧
    (sf r = none →
      simpleConditions ff sf start_year end_year r =
        ((ff r).isSome && r.age_group.isSome &&
          yearCond start_year end_year r.year)) := by
  constructor
  · rw [simpleSubgroupCond]
    cases hsf : sf r with
    | none => simp
    | some v => simp
  · intro hn
    rw [simpleConditions, simpleSubgroupCond, hn]
    simp

/-- Witness for C8 on a concrete NULL-sub-group row. -/
theorem simple_total_subgroup_filter_witness :
    simpleConditions Mother.diabetes_pre Mother.diabetes_subgroup none
        none (mkMother (some "25-29") (some true) none 2023 (some 30)
          none) =
      ((Mother.diabetes_pre (mkMother (some "25-29") (some true) none
          2023 (some 30) none)).isSome &&
        (mkMother (some "25-29") (some true) none 2023 (some 30)
          none).age_group.isSome &&
        yearCond none none (mkMother (some "25-29") (some true) none 2023
          (some 30) none).year) :=
  (simple_total_subgroup_filter Mother.diabetes_pre
    Mother.diabetes_subgroup none none
    (mkMother (some "25-29") (some true) none 2023 (some 30) none)).2
    (by decide)

/-- C1 (amended): in `get_factor_data`, the value stored at
`age_groups[ag][label][year]` for a group of the grouped query is
`AVG(percentage)` over the group's selected source rows — the arithmetic
mean of the group's non-NULL percentages (`pyFloatOrZero` maps the NULL
average, which arises exactly when every percentage of the group is
NULL, to `0.0`).  A row with a NULL percentage is ignored by the
average; it does not contribute `0.0` to it.  The uniqueness hypothesis
rules out a second raw sub-group value (such as NULL next to `""`)
normalizing onto the same output label. -/
theorem detailed_group_mean (rows : List Mother) (factor_name : String)
    (age_group : Option String) (start_year end_year : Option Int)
    (sub_group : Option (List String)) (ff : Mother → Option Bool)
    (sf : Mother → Option String)
    (hf : factorFields factor_name = some (ff, sf))
    (y : Int) (ag : String) (sg : Option String)
    (hag1 : ag ≠ "") (hag2 : pyLower ag ≠ "total")
    (hag3 : pyLower ag ≠ "not stated")
    (hne : ∃ r ∈ detailedSel rows ff sf sub_group start_year end_year,
      detailedKey sf r = (y, some ag, sg))
    (huniq : ∀ r ∈ detailedSel rows ff sf sub_group start_year end_year,
      r.year = y → r.age_group = some ag →
        sgLabel (sf r) = sgLabel sg → sf r = sg) :
    dget3 (getFactorData rows factor_name age_group start_year end_year
        sub_group).age_groups ag (sgLabel sg) y =
      some (pyFloatOrZero (sqlAvg
        (((detailedSel rows ff sf sub_group start_year end_year).filter
          (fun r => detailedKey sf r = (y, some ag, sg))).map
          Mother.percentage))) := by
  have hguard : ¬(ag = "" ∨ pyLower ag = "total" ∨
      pyLower ag = "not stated") := by
    push_neg
    exact ⟨hag1, hag2, hag3⟩
  have hk0 : ((y, some ag, sg) : Int × Option String × Option String) ∈
      detailedKeys rows ff sf sub_group start_year end_year :=
    (mem_detailedKeys _ _ _ _ _ _ _).mpr hne
  have htarget : detailedTarget (detailedRow rows ff sf sub_group
      start_year end_year (y, some ag, sg)) = some (ag, sgLabel sg, y) := by
    simp only [detailedRow, detailedTarget]
    rw [if_neg hguard]
  have hptrue : ((fun row => decide (detailedTarget row =
      some (ag, sgLabel sg, y))) ∘ detailedRow rows ff sf sub_group
      start_year end_year) (y, some ag, sg) = true := by
    simp only [Function.comp_apply, decide_eq_true_eq]
    exact htarget
  have huniq2 : ∀ k ∈ detailedKeys rows ff sf sub_group start_year
      end_year,
      ((fun row => decide (detailedTarget row =
        some (ag, sgLabel sg, y))) ∘ detailedRow rows ff sf sub_group
        start_year end_year) k = true → k = (y, some ag, sg) := by
    rintro ⟨k1, k2, k3⟩ hk hp
    simp only [Function.comp_apply, decide_eq_true_eq] at hp
    have hprops := detailedTarget_eq_some hp
    obtain ⟨r, hr, hkey⟩ := (mem_detailedKeys _ _ _ _ _ _ _).mp hk
    have hag' : k2 = some ag := by simpa [detailedRow] using hprops.1
    have hlab : sgLabel sg = sgLabel k3 := by
      simpa [detailedRow] using hprops.2.2.2.2.1
    have hyy : y = k1 := by simpa [detailedRow] using hprops.2.2.2.2.2
    rw [detailedKey] at hkey
    have h1 : r.year = k1 := congrArg Prod.fst hkey
    have h2 : r.age_group = k2 :=
      congrArg (fun p => p.2.1) hkey
    have h3 : sf r = k3 := congrArg (fun p => p.2.2) hkey
    have hk3 : k3 = sg := by
      rw [← h3]
      exact huniq r hr (by rw [h1, ← hyy]) (by rw [h2, hag'])
        (by rw [h3, ← hlab])
    rw [hag', ← hyy, hk3]
  have hfind : (detailedQuery rows ff sf sub_group start_year
      end_year).reverse.find? (fun row => decide (detailedTarget row =
      some (ag, sgLabel sg, y))) =
      some (detailedRow rows ff sf sub_group start_year end_year
        (y, some ag, sg)) := by
    rw [detailedQuery, ← List.map_reverse, List.find?_map,
      find?_reverse_of_unique hk0 hptrue huniq2]
    rfl
  simp only [getFactorData, hf]
  rw [dget3_foldl_detailedStep]
  have hbase : dget3 ((([], []) : List Int × AgeMap)).2 ag (sgLabel sg)
      y = none := rfl
  rw [hbase, Option.or_none, hfind]
  simp [detailedRow]

/-- C1 counterexample: two rows share the group key
`(2022, "20-24", "Gestational diabetes")`, one with percentage `5.0` and
one with a NULL percentage; the stored value is `5.0` (SQL `AVG` ignores
the NULL row), not the claimed `(5.0 + 0.0) / 2 = 2.5`. -/
theorem detailed_null_mean_counterexample :
    dget3 (getFactorData
      [mkMother (some "20-24") (some true) (some "Gestational diabetes")
        2022 none (some 5),
       mkMother (some "20-24") (some true) (some "Gestational diabetes")
        2022 none none]
      "diabetes" none none none none).age_groups "20-24"
      "Gestational diabetes" 2022 = some 5 ∧
    (5 : ℚ) ≠ (5 + 0) / 2 :=
  ⟨by decide, by decide⟩

/-- Witness for C1: percentages `5.0` and `7.0` in one group average to
`6.0`. -/
theorem detailed_group_mean_witness :
    dget3 (getFactorData
      [mkMother (some "20-24") (some true) (some "Gestational diabetes")
        2022 none (some 5),
       mkMother (some "20-24") (some true) (some "Gestational diabetes")
        2022 none (some 7)]
      "diabetes" none none none none).age_groups "20-24"
      "Gestational diabetes" 2022 = some 6 := by
  have h := detailed_group_mean
    [mkMother (some "20-24") (some true) (some "Gestational diabetes")
      2022 none (some 5),
     mkMother (some "20-24") (some true) (some "Gestational diabetes")
      2022 none (some 7)]
    "diabetes" none none none none Mother.diabetes_pre
    Mother.diabetes_subgroup rfl 2022 "20-24"
    (some "Gestational diabetes") (by decide) (by decide) (by decide)
    (by decide) (by decide)
  exact h.trans (by decide)

/-- The last write into a `temp_data` slot of `get_factor_data_simple`
is the grouped query's summed count for that `(year, age_group, factor)`
key — with the empty group giving `0`, the same value the slot defaults
to. -/
theorem lastCount_simpleQuery (rows : List Mother)
    (ff : Mother → Option Bool) (sf : Mother → Option String)
    (start_year end_year : Option Int) (ag : String) (y : Int) (b : Bool)
    (hag1 : ag ≠ "") (hag2 : pyLower ag ≠ "total")
    (hag3 : pyLower ag ≠ "not stated") :
    (lastCount (simpleQuery rows ff sf start_year end_year) ag y
        b).getD 0 =
      pyIntOrZero (sqlSum
        (((simpleSel rows ff sf start_year end_year).filter (fun r =>
          simpleKey ff r = (y, some ag, some b))).map
          Mother.total_mothers)) := by
  have hguard : ¬(ag = "" ∨ pyLower ag = "total" ∨
      pyLower ag = "not stated") := by
    push_neg
    exact ⟨hag1, hag2, hag3⟩
  have hchar : ∀ k ∈ simpleKeys rows ff sf start_year end_year,
      ((fun q => decide (simpleTarget q = some (ag, y)) &&
        (q.has_factor.getD false == b)) ∘ simpleRow rows ff sf start_year
        end_year) k = true → k = (y, some ag, some b) := by
    rintro ⟨k1, k2, k3⟩ hkk hp
    simp only [Function.comp_apply, Bool.and_eq_true,
      decide_eq_true_eq] at hp
    obtain ⟨hp1, hp2⟩ := hp
    have hprops := simpleTarget_eq_some hp1
    have hag' : k2 = some ag := by simpa [simpleRow] using hprops.1
    have hyy : y = k1 := by simpa [simpleRow] using hprops.2.2.2.2
    obtain ⟨r, hr, hkey⟩ := (mem_simpleKeys _ _ _ _ _ _).mp hkk
    have h3 : ff r = k3 := congrArg (fun p => p.2.2) hkey
    have hsome : (ff r).isSome = true := by
      have hcond := (List.mem_filter.mp hr).2
      simp only [simpleConditions, Bool.and_eq_true] at hcond
      exact hcond.1.1.1
    simp only [simpleRow] at hp2
    cases hk3 : k3 with
    | none =>
      rw [h3, hk3] at hsome
      simp at hsome
    | some b2 =>
      rw [hk3] at hp2
      have hb2 : b2 = b := by simpa using hp2
      rw [hag', ← hyy, hb2]
  by_cases hk : ((y, some ag, some b) :
      Int × Option String × Option Bool) ∈
      simpleKeys rows ff sf start_year end_year
  · have htarget : simpleTarget (simpleRow rows ff sf start_year
        end_year (y, some ag, some b)) = some (ag, y) := by
      simp only [simpleRow, simpleTarget]
      rw [if_neg hguard]
    have hptrue : ((fun q => decide (simpleTarget q = some (ag, y)) &&
        (q.has_factor.getD false == b)) ∘ simpleRow rows ff sf start_year
        end_year) (y, some ag, some b) = true := by
      simp only [Function.comp_apply]
      rw [htarget]
      simp [simpleRow]
    have hfind : (simpleQuery rows ff sf start_year
        end_year).reverse.find? (fun q =>
        decide (simpleTarget q = some (ag, y)) &&
          (q.has_factor.getD false == b)) =
        some (simpleRow rows ff sf start_year end_year
          (y, some ag, some b)) := by
      rw [simpleQuery, ← List.map_reverse, List.find?_map,
        find?_reverse_of_unique hk hptrue hchar]
      rfl
    rw [lastCount, hfind]
    simp [simpleRow]
  · have hfind : (simpleQuery rows ff sf start_year
        end_year).reverse.find? (fun q =>
        decide (simpleTarget q = some (ag, y)) &&
          (q.has_factor.getD false == b)) = none := by
      rw [List.find?_eq_none]
      intro q hq
      rw [simpleQuery, ← List.map_reverse] at hq
      obtain ⟨k, hkk, rfl⟩ := List.mem_map.mp hq
      intro hp
      exact hk (hchar k (List.mem_reverse.mp hkk) hp ▸
        List.mem_reverse.mp hkk)
    have hempty : (simpleSel rows ff sf start_year end_year).filter
        (fun r => simpleKey ff r = (y, some ag, some b)) = [] := by
      rw [List.filter_eq_nil_iff]
      intro r hr hcontra
      exact hk ((mem_simpleKeys _ _ _ _ _ _).mpr
        ⟨r, hr, of_decide_eq_true hcontra⟩)
    rw [lastCount, hfind, hempty]
    rfl

/-- C3 (amended/corrected): the per-key write of the first Python pass
of `get_factor_data_simple` is an overwrite, but the grouped query has
already summed `total_mothers` over all source rows sharing a
`(year, age_group, factor)` key — so the count retained in `temp_data`
for each boolean slot is the SQL sum over that key's duplicate source
rows (0 when the key has no rows or a NULL sum), not the last duplicate
row's own count. -/
theorem simple_counts_are_group_sums (rows : List Mother)
    (ff : Mother → Option Bool) (sf : Mother → Option String)
    (start_year end_year : Option Int) (ag : String) (y : Int)
    (cT cF : Int)
    (h : dget (simplePass1 (simpleQuery rows ff sf start_year
        end_year)).2 (ag, y) = some (cT, cF)) :
    cT = pyIntOrZero (sqlSum
      (((simpleSel rows ff sf start_year end_year).filter (fun r =>
        simpleKey ff r = (y, some ag, some true))).map
        Mother.total_mothers)) ∧
    cF = pyIntOrZero (sqlSum
      (((simpleSel rows ff sf start_year end_year).filter (fun r =>
        simpleKey ff r = (y, some ag, some false))).map
        Mother.total_mothers)) := by
  rw [simplePass1, dget_foldl_simpleStep1] at h
  by_cases hany : (simpleQuery rows ff sf start_year end_year).any
      (fun q => decide (simpleTarget q = some (ag, y))) = true
  · rw [if_pos hany] at h
    obtain ⟨q, hq, hdec⟩ := List.any_eq_true.mp hany
    have hprops := simpleTarget_eq_some (of_decide_eq_true hdec)
    have hpair := Option.some_inj.mp h
    constructor
    · rw [← lastCount_simpleQuery rows ff sf start_year end_year ag y
        true hprops.2.1 hprops.2.2.1 hprops.2.2.2.1]
      have h1 := congrArg Prod.fst hpair
      simpa [dget_nil] using h1.symm
    · rw [← lastCount_simpleQuery rows ff sf start_year end_year ag y
        false hprops.2.1 hprops.2.2.1 hprops.2.2.2.1]
      have h2 := congrArg Prod.snd hpair
      simpa [dget_nil] using h2.symm
  · rw [if_neg hany] at h
    simp [dget_nil] at h

/-- C3 counterexample: two source rows with the same
`(2023, "25-29", True)` key and counts `30` and `50` (plus a `False` row
with count `20`); the retained True-count is `80 = 30 + 50` — the SQL
sum — and the output Yes-percentage is `80.0`; retaining the last seen
value would instead keep `50` (or `30`). -/
theorem simple_overwrite_counterexample :
    dget (simplePass1 (simpleQuery
      [mkMother (some "25-29") (some true) none 2023 (some 30) none,
       mkMother (some "25-29") (some true) none 2023 (some 50) none,
       mkMother (some "25-29") (some false) none 2023 (some 20) none]
      Mother.diabetes_pre Mother.diabetes_subgroup none none)).2
      ("25-29", 2023) = some (80, 20) ∧
    dget3 (getFactorDataSimple
      [mkMother (some "25-29") (some true) none 2023 (some 30) none,
       mkMother (some "25-29") (some true) none 2023 (some 50) none,
       mkMother (some "25-29") (some false) none 2023 (some 20) none]
      "diabetes" none none none).age_groups "25-29" "Yes" 2023 =
      some 80 ∧
    (80 : Int) ≠ 50 ∧ (80 : Int) ≠ 30 :=
  ⟨by decide, by decide, by decide, by decide⟩

/-- Witness for C3: the retained True-count equals the group sum on the
concrete database above. -/
theorem simple_counts_are_group_sums_witness :
    (80 : Int) = pyIntOrZero (sqlSum
      (((simpleSel
        [mkMother (some "25-29") (some true) none 2023 (some 30) none,
         mkMother (some "25-29") (some true) none 2023 (some 50) none,
         mkMother (some "25-29") (some false) none 2023 (some 20) none]
        Mother.diabetes_pre Mother.diabetes_subgroup none none).filter
        (fun r => simpleKey Mother.diabetes_pre r =
          (2023, some "25-29", some true))).map Mother.total_mothers)) :=
  (simple_counts_are_group_sums
    [mkMother (some "25-29") (some true) none 2023 (some 30) none,
     mkMother (some "25-29") (some true) none 2023 (some 50) none,
     mkMother (some "25-29") (some false) none 2023 (some 20) none]
    Mother.diabetes_pre Mother.diabetes_subgroup none none "25-29" 2023
    80 20 (by decide)).1

/-- If exactly one element of `l` yields a value, scanning the reversed
list finds that value. -/
theorem findSome?_reverse_of_unique {α β : Type} {l : List α}
    {f : α → Option β} {a : α} {b : β} (ha : a ∈ l) (hfa : f a = some b)
    (huniq : ∀ x ∈ l, (f x).isSome → x = a) :
    l.reverse.findSome? f = some b := by
  cases h : l.reverse.findSome? f with
  | none =>
    rw [List.findSome?_eq_none_iff] at h
    rw [h a (List.mem_reverse.mpr ha)] at hfa
    exact Option.noConfusion hfa
  | some v =>
    obtain ⟨x, hx, hfx⟩ := List.exists_of_findSome?_eq_some h
    have hxa : x = a := huniq x (List.mem_reverse.mp hx) (by rw [hfx]; rfl)
    rw [hxa, hfa] at hfx
    rw [Option.some_inj.mp hfx]

/-- A SQL sum of nonnegative (or NULL) summands, null/zero-coalesced, is
nonnegative. -/
theorem sqlSum_nonneg (xs : List (Option Int))
    (h : ∀ v : Int, some v ∈ xs → 0 ≤ v) :
    0 ≤ pyIntOrZero (sqlSum xs) := by
  show 0 ≤ pyIntOrZero (if (xs.filterMap id).isEmpty then none
    else some (xs.filterMap id).sum)
  by_cases he : (xs.filterMap id).isEmpty
  · rw [if_pos he]
    exact le_refl 0
  · rw [if_neg he, pyIntOrZero]
    have hsum : 0 ≤ (xs.filterMap id).sum := by
      apply List.sum_nonneg
      intro v hv
      obtain ⟨a, ha, hav⟩ := List.mem_filterMap.mp hv
      have hae : a = some v := hav
      exact h v (hae ▸ ha)
    by_cases hz : (xs.filterMap id).sum ≠ 0
    · rw [if_pos hz]
      exact hsum
    · rw [if_neg hz]

/-- Every count in the simple grouped query result is nonnegative when
every source count is. -/
theorem simpleQuery_count_nonneg (rows : List Mother)
    (ff : Mother → Option Bool) (sf : Mother → Option String)
    (start_year end_year : Option Int)
    (h0 : ∀ r ∈ rows, 0 ≤ r.total_mothers.getD 0) :
    ∀ q ∈ simpleQuery rows ff sf start_year end_year,
      0 ≤ pyIntOrZero q.total_mothers := by
  intro q hq
  rw [simpleQuery] at hq
  obtain ⟨k, hk, rfl⟩ := List.mem_map.mp hq
  simp only [simpleRow]
  apply sqlSum_nonneg
  intro v hv
  obtain ⟨r, hr, hrv⟩ := List.mem_map.mp hv
  have hrows : r ∈ rows := by
    have h1 := List.mem_filter.mp hr
    have h2 := List.mem_filter.mp (by
      have : r ∈ simpleSel rows ff sf start_year end_year := h1.1
      rw [simpleSel] at this
      exact this)
    exact h2.1
  have := h0 r hrows
  rw [hrv] at this
  exact this

/-- The last written count of any slot is nonnegative when every source
count is. -/
theorem lastCount_nonneg (rows : List Mother) (ff : Mother → Option Bool)
    (sf : Mother → Option String) (start_year end_year : Option Int)
    (h0 : ∀ r ∈ rows, 0 ≤ r.total_mothers.getD 0) (ag : String) (y : Int)
    (b : Bool) :
    0 ≤ (lastCount (simpleQuery rows ff sf start_year end_year) ag y
      b).getD 0 := by
  rw [lastCount]
  cases hfind : (simpleQuery rows ff sf start_year
      end_year).reverse.find? (fun q =>
      decide (simpleTarget q = some (ag, y)) &&
        (q.has_factor.getD false == b)) with
  | none => exact le_refl 0
  | some q =>
    rw [Option.map_some', Option.getD_some]
    exact simpleQuery_count_nonneg rows ff sf start_year end_year h0 q
      (List.mem_reverse.mp (List.mem_of_find?_eq_some hfind))

/-- Both counts of any `temp_data` entry are nonnegative when every
source count is. -/
theorem simpleTemp_nonneg (rows : List Mother)
    (ff : Mother → Option Bool) (sf : Mother → Option String)
    (start_year end_year : Option Int)
    (h0 : ∀ r ∈ rows, 0 ≤ r.total_mothers.getD 0) (ag : String) (y : Int)
    (cT cF : Int)
    (h : dget (simplePass1 (simpleQuery rows ff sf start_year
        end_year)).2 (ag, y) = some (cT, cF)) :
    0 ≤ cT ∧ 0 ≤ cF := by
  rw [simplePass1, dget_foldl_simpleStep1] at h
  by_cases hany : (simpleQuery rows ff sf start_year end_year).any
      (fun q => decide (simpleTarget q = some (ag, y))) = true
  · rw [if_pos hany] at h
    have hpair := Option.some_inj.mp h
    constructor
    · have h1 := congrArg Prod.fst hpair
      have h2 : (lastCount (simpleQuery rows ff sf start_year end_year)
          ag y true).getD 0 = cT := by simpa [dget_nil] using h1
      rw [← h2]
      exact lastCount_nonneg rows ff sf start_year end_year h0 ag y true
    · have h1 := congrArg Prod.snd hpair
      have h2 : (lastCount (simpleQuery rows ff sf start_year end_year)
          ag y false).getD 0 = cF := by simpa [dget_nil] using h1
      rw [← h2]
      exact lastCount_nonneg rows ff sf start_year end_year h0 ag y false
  · rw [if_neg hany] at h
    simp [dget_nil] at h

theorem itemWrites_none (a : String) (yy : Int) (cT cF : Int)
    (ag sg : String) (y : Int)
    (h : ¬(a = ag ∧ yy = y ∧ cT + cF ≠ 0)) :
    itemWrites ((a, yy), (cT, cF)) ag sg y = none := by
  unfold itemWrites
  simp only
  rw [if_neg h]

theorem itemWrites_yes (a : String) (yy : Int) (cT cF : Int)
    (ag : String) (y : Int) (h1 : a = ag) (h2 : yy = y)
    (h3 : cT + cF ≠ 0) :
    itemWrites ((a, yy), (cT, cF)) ag "Yes" y =
      some (if 0 < cT + cF then
        (cT : ℚ) / ((cT + cF : Int) : ℚ) * 100 else 0) := by
  unfold itemWrites
  simp only
  have hc : a = ag ∧ yy = y ∧ cT + cF ≠ 0 := ⟨h1, h2, h3⟩
  rw [if_pos hc]
  simp

theorem itemWrites_no (a : String) (yy : Int) (cT cF : Int)
    (ag : String) (y : Int) (h1 : a = ag) (h2 : yy = y)
    (h3 : cT + cF ≠ 0) :
    itemWrites ((a, yy), (cT, cF)) ag "No" y =
      some (if 0 < cT + cF then
        (cF : ℚ) / ((cT + cF : Int) : ℚ) * 100 else 0) := by
  unfold itemWrites
  simp only
  have hc : a = ag ∧ yy = y ∧ cT + cF ≠ 0 := ⟨h1, h2, h3⟩
  rw [if_pos hc]
  simp

/-- C4 (amended): provided every source row's `total_mothers` count is
nonnegative — true of all imported statistics — then in the simple
view's output, for every `(age_group, year)`: the `"Yes"` and `"No"`
entries are present together, and when present they sum to exactly 100;
and a `(age_group, year)` group whose true-count plus false-count is 0
is omitted from the output entirely.  (Without the nonnegativity
proviso a group with a negative total would be present with `0.0` for
both labels — see the counterexample.) -/
theorem simple_yes_no_sum (rows : List Mother) (factor_name : String)
    (age_group : Option String) (start_year end_year : Option Int)
    (h0 : ∀ r ∈ rows, 0 ≤ r.total_mothers.getD 0) (ag : String)
    (y : Int) :
    ((dget3 (getFactorDataSimple rows factor_name age_group start_year
        end_year).age_groups ag "Yes" y).isSome ↔
      (dget3 (getFactorDataSimple rows factor_name age_group start_year
        end_year).age_groups ag "No" y).isSome) ∧
    (∀ p q : ℚ,
      dget3 (getFactorDataSimple rows factor_name age_group start_year
        end_year).age_groups ag "Yes" y = some p →
      dget3 (getFactorDataSimple rows factor_name age_group start_year
        end_year).age_groups ag "No" y = some q →
      p + q = 100) ∧
    (∀ ff sf, factorFields factor_name = some (ff, sf) →
      ∀ cT cF : Int,
        dget (simplePass1 (simpleQuery rows ff sf start_year
          end_year)).2 (ag, y) = some (cT, cF) →
        cT + cF = 0 →
        dget3 (getFactorDataSimple rows factor_name age_group start_year
          end_year).age_groups ag "Yes" y = none ∧
        dget3 (getFactorDataSimple rows factor_name age_group start_year
          end_year).age_groups ag "No" y = none) := by
  cases hf : factorFields factor_name with
  | none =>
    refine ⟨by simp [getFactorDataSimple, hf, dget3, dget_nil], ?_, ?_⟩
    · intro p q hp hq
      simp [getFactorDataSimple, hf, dget3, dget_nil] at hp
    · intro ff sf hff
      exact Option.noConfusion hff
  | some p0 =>
    obtain ⟨ff0, sf0⟩ := p0
    have hnodup : (((simplePass1 (simpleQuery rows ff0 sf0 start_year
        end_year)).2).map Prod.fst).Nodup :=
      nodupKeys_foldl_simpleStep1 _ _ (by simp)
    have hout : ∀ sg : String,
        dget3 (getFactorDataSimple rows factor_name age_group start_year
          end_year).age_groups ag sg y =
        ((simplePass1 (simpleQuery rows ff0 sf0 start_year
          end_year)).2).reverse.findSome?
          (fun it => itemWrites it ag sg y) := by
      intro sg
      simp only [getFactorDataSimple, hf]
      rw [dget3_foldl_simpleStep2,
        show dget3 ([] : AgeMap) ag sg y = none from rfl, Option.or_none]
    cases hT : dget (simplePass1 (simpleQuery rows ff0 sf0 start_year
        end_year)).2 (ag, y) with
    | none =>
      have hnokey : ((ag, y) : String × Int) ∉
          ((simplePass1 (simpleQuery rows ff0 sf0 start_year
            end_year)).2).map Prod.fst := by
        rw [mem_keys_iff_dget, hT]
        simp
      have hnone : ∀ sg : String,
          ((simplePass1 (simpleQuery rows ff0 sf0 start_year
            end_year)).2).reverse.findSome?
            (fun it => itemWrites it ag sg y) = none := by
        intro sg
        rw [List.findSome?_eq_none_iff]
        rintro ⟨⟨a, yy⟩, c1, c2⟩ hit
        refine itemWrites_none a yy c1 c2 ag sg y ?_
        intro hcond
        refine hnokey ?_
        have hkey : ((a, yy) : String × Int) = (ag, y) := by
          rw [hcond.1, hcond.2.1]
        exact hkey ▸ List.mem_map_of_mem Prod.fst
          (List.mem_reverse.mp hit)
      refine ⟨by rw [hout "Yes", hout "No", hnone "Yes", hnone "No"],
        ?_, ?_⟩
      · intro p q hp hq
        rw [hout "Yes", hnone "Yes"] at hp
        exact Option.noConfusion hp
      · intro ff sf hff cT cF hdg htot
        have hps : (ff0, sf0) = (ff, sf) := Option.some_inj.mp hff
        obtain ⟨rfl, rfl⟩ : ff0 = ff ∧ sf0 = sf :=
          ⟨congrArg Prod.fst hps, congrArg Prod.snd hps⟩
        rw [hT] at hdg
        exact Option.noConfusion hdg
    | some c =>
      obtain ⟨cT0, cF0⟩ := c
      have hmem : ((((ag, y), (cT0, cF0))) :
          (String × Int) × (Int × Int)) ∈
          (simplePass1 (simpleQuery rows ff0 sf0 start_year
            end_year)).2 := mem_of_dget hT
      have hcnn := simpleTemp_nonneg rows ff0 sf0 start_year end_year h0
        ag y cT0 cF0 hT
      by_cases htot : cT0 + cF0 = 0
      · have hnone : ∀ sg : String,
            ((simplePass1 (simpleQuery rows ff0 sf0 start_year
              end_year)).2).reverse.findSome?
              (fun it => itemWrites it ag sg y) = none := by
          intro sg
          rw [List.findSome?_eq_none_iff]
          rintro ⟨⟨a, yy⟩, c1, c2⟩ hit
          refine itemWrites_none a yy c1 c2 ag sg y ?_
          intro hcond
          have hkey : ((a, yy) : String × Int) = (ag, y) := by
            rw [hcond.1, hcond.2.1]
          have hmem2 : ((((ag, y), (c1, c2))) :
              (String × Int) × (Int × Int)) ∈
              (simplePass1 (simpleQuery rows ff0 sf0 start_year
                end_year)).2 := hkey ▸ (List.mem_reverse.mp hit)
          have h6 : ((c1, c2) : Int × Int) = (cT0, cF0) :=
            eq_of_mem_nodupKeys hmem2 hmem hnodup
          have hc1 : c1 = cT0 := congrArg Prod.fst h6
          have hc2 : c2 = cF0 := congrArg Prod.snd h6
          have h7 : c1 + c2 = 0 := by
            rw [hc1, hc2]
            exact htot
          exact hcond.2.2 h7
        refine ⟨by rw [hout "Yes", hout "No", hnone "Yes", hnone "No"],
          ?_, ?_⟩
        · intro p q hp hq
          rw [hout "Yes", hnone "Yes"] at hp
          exact Option.noConfusion hp
        · intro ff sf hff cT cF hdg htot2
          exact ⟨by rw [hout "Yes", hnone "Yes"],
            by rw [hout "No", hnone "No"]⟩
      · have huniqW : ∀ sg : String,
            ∀ it ∈ (simplePass1 (simpleQuery rows ff0 sf0 start_year
              end_year)).2,
            (itemWrites it ag sg y).isSome →
              it = ((ag, y), (cT0, cF0)) := by
          intro sg
          rintro ⟨⟨a, yy⟩, c1, c2⟩ hit hw
          by_cases hcond : a = ag ∧ yy = y ∧ c1 + c2 ≠ 0
          · have hkey : ((a, yy) : String × Int) = (ag, y) := by
              rw [hcond.1, hcond.2.1]
            have hmem2 : ((((ag, y), (c1, c2))) :
                (String × Int) × (Int × Int)) ∈
                (simplePass1 (simpleQuery rows ff0 sf0 start_year
                  end_year)).2 := hkey ▸ hit
            have h6 : ((c1, c2) : Int × Int) = (cT0, cF0) :=
              eq_of_mem_nodupKeys hmem2 hmem hnodup
            rw [hkey, h6]
          · rw [itemWrites_none a yy c1 c2 ag sg y hcond] at hw
            exact Bool.noConfusion hw
        have hYes : ((simplePass1 (simpleQuery rows ff0 sf0 start_year
            end_year)).2).reverse.findSome?
            (fun it => itemWrites it ag "Yes" y) =
            some (if 0 < cT0 + cF0 then
              (cT0 : ℚ) / ((cT0 + cF0 : Int) : ℚ) * 100 else 0) :=
          findSome?_reverse_of_unique hmem
            (itemWrites_yes ag y cT0 cF0 ag y rfl rfl htot)
            (huniqW "Yes")
        have hNo : ((simplePass1 (simpleQuery rows ff0 sf0 start_year
            end_year)).2).reverse.findSome?
            (fun it => itemWrites it ag "No" y) =
            some (if 0 < cT0 + cF0 then
              (cF0 : ℚ) / ((cT0 + cF0 : Int) : ℚ) * 100 else 0) :=
          findSome?_reverse_of_unique hmem
            (itemWrites_no ag y cT0 cF0 ag y rfl rfl htot)
            (huniqW "No")
        have htpos : 0 < cT0 + cF0 :=
          lt_of_le_of_ne (add_nonneg hcnn.1 hcnn.2) (Ne.symm htot)
        refine ⟨by rw [hout "Yes", hout "No", hYes, hNo]; simp, ?_, ?_⟩
        · intro p q hp hq
          rw [hout "Yes", hYes] at hp
          rw [hout "No", hNo] at hq
          have hp2 := Option.some_inj.mp hp
          have hq2 := Option.some_inj.mp hq
          rw [if_pos htpos] at hp2 hq2
          rw [← hp2, ← hq2]
          have hne : ((cT0 + cF0 : Int) : ℚ) ≠ 0 :=
            Int.cast_ne_zero.mpr htot
          push_cast at hne ⊢
          field_simp
          ring
        · intro ff sf hff cT cF hdg htot2
          have hps : (ff0, sf0) = (ff, sf) := Option.some_inj.mp hff
          obtain ⟨rfl, rfl⟩ : ff0 = ff ∧ sf0 = sf :=
            ⟨congrArg Prod.fst hps, congrArg Prod.snd hps⟩
          rw [hT] at hdg
          have hcc := Option.some_inj.mp hdg
          have hce1 : cT0 = cT := congrArg Prod.fst hcc
          have hce2 : cF0 = cF := congrArg Prod.snd hcc
          exfalso
          refine htot ?_
          rw [hce1, hce2]
          exact htot2

/-- C4 counterexample: with a negative count (`total_mothers = -5`), the
group total is `-2 ≠ 0`, so the group is not skipped, and both labels
get `0.0` — their sum is not 100. -/
theorem simple_negative_total_counterexample :
    dget3 (getFactorDataSimple
      [mkMother (some "30-34") (some true) none 2023 (some 3) none,
       mkMother (some "30-34") (some false) none 2023 (some (-5)) none]
      "diabetes" none none none).age_groups "30-34" "Yes" 2023 =
      some 0 ∧
    dget3 (getFactorDataSimple
      [mkMother (some "30-34") (some true) none 2023 (some 3) none,
       mkMother (some "30-34") (some false) none 2023 (some (-5)) none]
      "diabetes" none none none).age_groups "30-34" "No" 2023 =
      some 0 ∧
    (0 : ℚ) + 0 ≠ 100 :=
  ⟨by decide, by decide, by decide⟩

/-- Witness for C4: counts 30 (Yes) and 20 (No) give `60.0 + 40.0 =
100`. -/
theorem simple_yes_no_sum_witness : (60 : ℚ) + 40 = 100 :=
  (simple_yes_no_sum
    [mkMother (some "25-29") (some true) none 2023 (some 30) none,
     mkMother (some "25-29") (some false) none 2023 (some 20) none]
    "diabetes" none none none (by decide) "25-29" 2023).2.1 60 40
    (by decide) (by decide)

/-- C10 (amended/corrected): `get_preparing_scenario_data` with no
profile attributes returns mothers statistics equal to the unfiltered
year-2023 baseline, and both snapshots default to
`{total: 0, avg_percentage: 0.0}` when no rows match, never null and
never an error.  `get_comparison_data`, however, skips the filtered
query entirely when no attribute is supplied, leaving `user_stats` as
the empty mapping `{}` rather than the baseline statistics; when at
least one attribute is supplied and no row matches, `user_stats`
defaults to `{total: 0, avg_percentage: 0.0}`. -/
theorem snapshot_defaults :
    (∀ (mrows : List Mother) (crows : List Complication),
      (getPreparingScenarioData mrows crows none none none none none
        none).mothers =
      (getPreparingScenarioData mrows crows none none none none none
        none).overall_average) ∧
    (∀ (f : ComparisonFilters) (rows : List Mother),
      motherProfileAny f.age_group f.smoking f.bmi f.diabetes
        f.hypertension f.lhd = false →
      (getComparisonData "preparing" f rows).user_stats = none) ∧
    (∀ (mrows : List Mother) (crows : List Complication),
      mrows.filter (fun r => decide (r.year = 2023)) = [] →
      (getPreparingScenarioData mrows crows none none none none none
        none).overall_average = ⟨0, 0⟩ ∧
      (getPreparingScenarioData mrows crows none none none none none
        none).mothers = ⟨0, 0⟩) ∧
    (∀ (f : ComparisonFilters) (rows : List Mother),
      motherProfileAny f.age_group f.smoking f.bmi f.diabetes
        f.hypertension f.lhd = true →
      rows.filter (motherProfileConds f.age_group f.smoking f.bmi
        f.diabetes f.hypertension f.lhd) = [] →
      (getComparisonData "preparing" f rows).user_stats =
        some ⟨0, 0⟩) := by
  refine ⟨?_, ?_, ?_, ?_⟩
  · intro mrows crows
    simp only [getPreparingScenarioData]
    congr 1
    exact List.filter_congr (fun r _ => by
      rw [show motherProfileConds none none none none none none r = true
        from rfl, Bool.and_true])
  · intro f rows hfalse
    rw [getComparisonData, if_pos rfl]
    simp only
    rw [if_neg (by rw [hfalse]; exact Bool.noConfusion)]
  · intro mrows crows hnil
    have h2 : mrows.filter (fun r => decide (r.year = 2023) &&
        motherProfileConds none none none none none none r) = [] := by
      rw [List.filter_eq_nil_iff]
      intro r hr hcontra
      rw [Bool.and_eq_true] at hcontra
      exact (List.filter_eq_nil_iff.mp hnil r hr) hcontra.1
    constructor
    · simp only [getPreparingScenarioData]
      rw [hnil]
      rfl
    · simp only [getPreparingScenarioData]
      rw [h2]
      rfl
  · intro f rows htrue hnil
    rw [getComparisonData, if_pos rfl]
    simp only
    rw [if_pos htrue, hnil]
    rfl

/-- C10 counterexample: a `"preparing"` comparison call with no profile
attributes leaves `user_stats` as the empty mapping, which is not the
baseline statistics `{total: 1, avg_percentage: 4.0}` computed on the
same database. -/
theorem comparison_no_filters_counterexample :
    (getComparisonData "preparing" ⟨none, none, none, none, none, none⟩
      [mkMother (some "20-24") none none 2023 none
        (some 4)]).user_stats = none ∧
    (getComparisonData "preparing" ⟨none, none, none, none, none, none⟩
      [mkMother (some "20-24") none none 2023 none
        (some 4)]).overall_average = some ⟨1, 4⟩ ∧
    (none : Option Stats) ≠ some ⟨1, 4⟩ :=
  ⟨by decide, by decide, by decide⟩

/-- Witness for C10 on concrete databases. -/
theorem snapshot_defaults_witness :
    (getPreparingScenarioData
      [mkMother (some "20-24") none none 2023 none (some 4)] [] none
      none none none none none).mothers =
    (getPreparingScenarioData
      [mkMother (some "20-24") none none 2023 none (some 4)] [] none
      none none none none none).overall_average ∧
    (getComparisonData "preparing"
      ⟨some "20-24", none, none, none, none, none⟩ []).user_stats =
      some ⟨0, 0⟩ :=
  ⟨snapshot_defaults.1
    [mkMother (some "20-24") none none 2023 none (some 4)] [],
   snapshot_defaults.2.2.2 ⟨some "20-24", none, none, none, none, none⟩
    [] (by decide) (by decide)⟩

end MommyData
